import Mathlib

/-!
Shallow embedding of the trendygenie-admin data-access layer and the claims
about it.  Every definition is translated from the TypeScript source of the
repository: service functions become Lean functions taking the replies of the
backing store (and possible thrown exceptions) as explicit arguments, and the
stateful pagination hook becomes explicit state passing.  JavaScript numbers
that the code only ever uses as integers are modelled as Int or Nat.
-/

namespace TG

/-! ### Common shapes (src/types/common.ts) -/

/-- The flat error shape surfaced to the UI (interface ApiError). -/
structure ApiError where
  message : String
  code : Option String := none
  status : Option Nat := none
deriving Repr, DecidableEq

/-- An error reported by the backing store (PostgrestError: message and code). -/
structure StoreError where
  message : String
  code : String
deriving Repr, DecidableEq

/-- A JavaScript exception: either an Error instance carrying a message, or any
other thrown value.  The catch blocks of the services test
`err instanceof Error`. -/
inductive JsError where
  | errObj (msg : String)
  | otherThrown
deriving Repr, DecidableEq

/-- Embedding of the catch-block pattern
`err instanceof Error ? err.message : fallback`. -/
def catchMessage (e : JsError) (fallback : String) : String :=
  match e with
  | .errObj m => m
  | .otherThrown => fallback

/-- Conversion of a store error to the flat ApiError shape, as written in every
error branch: `{ message: error.message, code: error.code }`. -/
def StoreError.toApi (e : StoreError) : ApiError :=
  { message := e.message, code := some e.code }

/-! ### Status enums (src/types/business.ts line 6, src/types/service.ts
line 7, src/types/transaction.ts line 6, src/types/company.ts).  Each union
of string literals becomes an inductive type together with the literal string
of each constructor, in source order. -/

inductive BusinessStatus
  | pending | active | rejected | suspended | removed | deleted
deriving Repr, DecidableEq

def BusinessStatus.str : BusinessStatus → String
  | .pending => "pending"
  | .active => "active"
  | .rejected => "rejected"
  | .suspended => "suspended"
  | .removed => "removed"
  | .deleted => "deleted"

def businessStatusStrings : List String :=
  [BusinessStatus.pending, .active, .rejected, .suspended, .removed,
   .deleted].map BusinessStatus.str

inductive ServiceStatus
  | pending | active | rejected | suspended | deleted | requestDeletion
deriving Repr, DecidableEq

def ServiceStatus.str : ServiceStatus → String
  | .pending => "pending"
  | .active => "active"
  | .rejected => "rejected"
  | .suspended => "suspended"
  | .deleted => "deleted"
  | .requestDeletion => "requestDeletion"

def serviceStatusStrings : List String :=
  [ServiceStatus.pending, .active, .rejected, .suspended, .deleted,
   .requestDeletion].map ServiceStatus.str

inductive TransactionStatus
  | pending | completed | failed | refunded | cancelled | processing
deriving Repr, DecidableEq

def TransactionStatus.str : TransactionStatus → String
  | .pending => "pending"
  | .completed => "completed"
  | .failed => "failed"
  | .refunded => "refunded"
  | .cancelled => "cancelled"
  | .processing => "processing"

def transactionStatusStrings : List String :=
  [TransactionStatus.pending, .completed, .failed, .refunded, .cancelled,
   .processing].map TransactionStatus.str

inductive CompanyStatus
  | pending | approved | rejected | suspended
deriving Repr, DecidableEq

def CompanyStatus.str : CompanyStatus → String
  | .pending => "pending"
  | .approved => "approved"
  | .rejected => "rejected"
  | .suspended => "suspended"

/-! ### Row records.  One structure per table row, with the persisted columns
of the corresponding TypeScript interface in source order.  The optional
joined objects (company?, category?, ...) are artifacts of select-with-join,
not stored columns, and are omitted.  JavaScript number columns are carried
as Int: no modelled operation computes with them, so the carrier is
immaterial. -/

/-- interface ContactPhone (src/types/business.ts). -/
structure ContactPhone where
  number : String
  label : Option String := none
deriving Repr, DecidableEq

/-- interface BusinessHour (src/types/business.ts); the open column is
renamed openTime because open is a Lean keyword. -/
structure BusinessHour where
  day : String
  openTime : String
  close : String
  is_closed : Bool
deriving Repr, DecidableEq

/-- interface Business (src/types/business.ts). -/
structure Business where
  id : String
  name : String
  description : Option String
  logo_url : Option String
  address : String
  contact_email : String
  contact_phone : List ContactPhone
  company_id : String
  category_id : Option String
  subcategory_id : Option String
  status : BusinessStatus
  rating : Int
  business_hours : List BusinessHour
  latitude : Option Int
  longitude : Option Int
  currency : String
  created_at : String
  updated_at : String
deriving Repr, DecidableEq

/-- interface Service (src/types/service.ts).  The two Record<string,
unknown> columns are carried as plain strings. -/
structure Service where
  id : String
  title : String
  description : Option String
  category_id : String
  images : List String
  rating : Int
  distance : Int
  status : ServiceStatus
  normal_price : Int
  promotional_price : Int
  currency : String
  bedroom_count : Option Int
  bathroom_count : Option Int
  has_kitchen : Option Bool
  property_type : Option String
  cuisine : Option String
  is_delivery_available : Option Bool
  food_category : Option String
  caracteristics : Option String
  provider_id : String
  business_id : Option String
  company_id : Option String
  created_by : Option String
  is_active : Bool
  view_count : Int
  metadata : Option String
  created_at : String
  updated_at : String
deriving Repr, DecidableEq

/-- interface Company (src/types/company.ts). -/
structure Company where
  id : String
  name : String
  registration_number : String
  address : String
  category_id : Option String
  owner_id : String
  status : CompanyStatus
  company_logo : Option String
  owner_id_image : Option String
  selfie_image : Option String
  is_verified : Bool
  description : Option String
  website : Option String
  email : Option String
  phone : Option String
  latitude : Option Int
  longitude : Option Int
  city : Option String
  country : Option String
  postal_code : Option String
  total_orders : Int
  rating : Int
  review_count : Int
  created_at : String
  updated_at : String
  approved_at : Option String
deriving Repr, DecidableEq

/-- interface LegalPage (src/types/legalPage.ts); page_type is one of the
LegalPageType literals. -/
structure LegalPage where
  id : String
  title : String
  slug : String
  page_type : String
  content : String
  is_active : Bool
  created_at : String
  updated_at : String
deriving Repr, DecidableEq

/-- interface User (src/types/user.ts); user_type is one of the UserType
literals customer / provider / admin. -/
structure UserRow where
  id : String
  full_name : String
  email : String
  phone : Option String
  phone_number : Option String
  profile_image : Option String
  user_type : String
  is_active : Bool
  is_email_verified : Bool
  is_phone_verified : Bool
  created_at : String
  updated_at : String
deriving Repr, DecidableEq

/-- interface Transaction (src/types/transaction.ts).  payment_provider is
one of the PaymentProvider literals; metadata is carried as a string. -/
structure Transaction where
  id : String
  order_id : String
  customer_id : String
  business_id : Option String
  company_id : Option String
  amount : Int
  currency : String
  payment_method : String
  payment_provider : String
  provider_payment_id : Option String
  status : TransactionStatus
  transaction_fee : Int
  description : Option String
  receipt_url : Option String
  metadata : Option String
  created_at : String
  updated_at : String
deriving Repr, DecidableEq

/-! ### Query descriptors and store replies.  A supabase query chain becomes
a descriptor value; the remote store is an oracle argument mapping nothing
in particular — each service function simply receives the reply (or the
exception) of the one awaited query it issues.  The select strings with
their join projections shape the returned rows and are not part of any
claim, so they are not recorded in the descriptor. -/

/-- One filter step of a query chain: .eq, .gte, .lte or .or. -/
inductive QueryFilter where
  | eqF (column value : String)
  | gteF (column value : String)
  | lteF (column value : String)
  | orF (expr : String)
deriving Repr, DecidableEq

/-- The observable shape of a built list query: table, filter steps in chain
order, ordering, and the inclusive row range passed to .range. -/
structure ListQuery where
  table : String
  filters : List QueryFilter
  sortBy : String
  ascending : Bool
  rangeFrom : Nat
  rangeTo : Nat
deriving Repr, DecidableEq

/-- Reply of an awaited list query: destructured as { data, error, count }. -/
structure StoreListReply (α : Type) where
  data : List α
  error : Option StoreError := none
  count : Option Nat := none

/-- Reply of an awaited head-count query: destructured as { count, error }. -/
structure CountReply where
  count : Option Nat := none
  error : Option StoreError := none
deriving Repr, DecidableEq

/-- interface PaginatedResponse (src/types/common.ts). -/
structure PaginatedResponse (α : Type) where
  data : List α
  total : Nat
  page : Nat
  pageSize : Nat
  totalPages : Nat
deriving Repr, DecidableEq

/-- Embedding of `Math.ceil(total / pageSize)` on the natural total and
positive pageSize used by every list service. -/
def jsCeilNat (total pageSize : Nat) : Nat :=
  (total + pageSize - 1) / pageSize

/-- JavaScript truthiness of an optional string (`if (s)`): defined and
non-empty. -/
def truthyStr : Option String → Option String
  | some s => if s = "" then none else some s
  | none => none

/-- `.single()`: a data row exactly when the result set has exactly one
row; otherwise data is null and the store reports an error. -/
def singleRow {α : Type} : List α → Option α
  | [a] => some a
  | _ => none

/-- The PostgREST reply when .single() does not see exactly one row
(modelled store behaviour, not repository code). -/
def noRowError : StoreError :=
  { message := "JSON object requested, multiple (or no) rows returned",
    code := "PGRST116" }

/-! ### businessService.ts -/

/-- interface BusinessQueryParams (filters plus paging). -/
structure BusinessQueryParams where
  status : Option BusinessStatus := none
  categoryId : Option String := none
  companyId : Option String := none
  search : Option String := none
  page : Option Nat := none
  pageSize : Option Nat := none
  sortBy : Option String := none
  sortOrder : Option String := none

structure BusinessResponse where
  business : Option Business
  error : Option ApiError

structure BusinessesResponse where
  data : Option (PaginatedResponse Business)
  error : Option ApiError

structure BusinessStats where
  total : Nat
  active : Nat
  pending : Nat
  suspended : Nat
  rejected : Nat
deriving Repr, DecidableEq

structure BusinessStatsResponse where
  stats : Option BusinessStats
  error : Option ApiError
deriving Repr, DecidableEq

/-- The query chain built by getBusinesses before it is awaited:
destructured defaults, offset = (page - 1) * pageSize, filters in source
order, sorting, and .range(offset, offset + pageSize - 1). -/
def getBusinessesQuery (params : BusinessQueryParams) : ListQuery :=
  let page := params.page.getD 1
  let pageSize := params.pageSize.getD 10
  let sortBy := params.sortBy.getD "created_at"
  let sortOrder := params.sortOrder.getD "desc"
  let offset := (page - 1) * pageSize
  let statusF := match params.status with
    | some st => [QueryFilter.eqF "status" st.str]
    | none => []
  let categoryF := match truthyStr params.categoryId with
    | some c => [QueryFilter.eqF "category_id" c]
    | none => []
  let companyF := match truthyStr params.companyId with
    | some c => [QueryFilter.eqF "company_id" c]
    | none => []
  let searchF := match truthyStr params.search with
    | some s => [QueryFilter.orF
        ("name.ilike.%" ++ s ++ "%,address.ilike.%" ++ s ++
         "%,contact_email.ilike.%" ++ s ++ "%")]
    | none => []
  { table := "businesses",
    filters := statusF ++ categoryF ++ companyF ++ searchF,
    sortBy := sortBy,
    ascending := sortOrder = "asc",
    rangeFrom := offset,
    rangeTo := offset + pageSize - 1 }

/-- getBusinesses: translation of the awaited reply (or thrown exception)
into a BusinessesResponse. -/
def getBusinesses (params : BusinessQueryParams)
    (outcome : Except JsError (StoreListReply Business)) : BusinessesResponse :=
  match outcome with
  | .error e =>
    { data := none,
      error := some { message := catchMessage e "Failed to fetch businesses" } }
  | .ok reply =>
    match reply.error with
    | some e => { data := none, error := some e.toApi }
    | none =>
      let page := params.page.getD 1
      let pageSize := params.pageSize.getD 10
      let total := reply.count.getD 0
      { data := some
          { data := reply.data, total := total, page := page,
            pageSize := pageSize, totalPages := jsCeilNat total pageSize },
        error := none }

/-- getBusinessById: .eq on id then .single(). -/
def getBusinessById (store : List Business) (id : String) : BusinessResponse :=
  match singleRow (store.filter (fun r => r.id = id)) with
  | some row => { business := some row, error := none }
  | none => { business := none, error := some noRowError.toApi }

/-- The row transformation of updateBusinessStatus: the update payload is
`{ status, updated_at: new Date().toISOString() }`. -/
def applyBusinessStatusUpdate (status : BusinessStatus) (now : String)
    (row : Business) : Business :=
  { row with status := status, updated_at := now }

/-- updateBusinessStatus over a store of rows: the update payload is applied
to every row matching the id (ids are unique in the store), then
.select(...).single() returns the updated row or errors when no row
matched.  A store-reported failure of the update itself arrives as
updateError and leaves the store unchanged. -/
def updateBusinessStatus (store : List Business) (id : String)
    (status : BusinessStatus) (now : String)
    (updateError : Option StoreError) : List Business × BusinessResponse :=
  match updateError with
  | some e => (store, { business := none, error := some e.toApi })
  | none =>
    let store2 := store.map (fun r =>
      if r.id = id then applyBusinessStatusUpdate status now r else r)
    match singleRow (store2.filter (fun r => r.id = id)) with
    | some row => (store2, { business := some row, error := none })
    | none => (store2, { business := none, error := some noRowError.toApi })

/-- deleteBusiness: .delete().eq on id; the result carries only the
optional flat error and success removes the matching rows. -/
def deleteBusiness (store : List Business) (id : String)
    (outcome : Except JsError (Option StoreError)) :
    List Business × Option ApiError :=
  match outcome with
  | .error e =>
    (store, some { message := catchMessage e "Failed to delete business" })
  | .ok (some e) => (store, some e.toApi)
  | .ok none => (store.filter (fun r => ¬ r.id = id), none)

/-- getBusinessStats: five sequential head-count queries on the businesses
table — total (no filter) then statuses active, pending, suspended,
rejected — aborting with the first failure; exec maps the optional status
filter of a count query to its reply or a thrown exception. -/
def getBusinessStats (exec : Option String → Except JsError CountReply) :
    BusinessStatsResponse :=
  match exec none with
  | .error e =>
    { stats := none,
      error := some { message := catchMessage e "Failed to fetch business stats" } }
  | .ok totalR =>
    match totalR.error with
    | some e => { stats := none, error := some e.toApi }
    | none =>
      match exec (some "active") with
      | .error e =>
        { stats := none,
          error := some { message := catchMessage e "Failed to fetch business stats" } }
      | .ok activeR =>
        match activeR.error with
        | some e => { stats := none, error := some e.toApi }
        | none =>
          match exec (some "pending") with
          | .error e =>
            { stats := none,
              error := some { message := catchMessage e "Failed to fetch business stats" } }
          | .ok pendingR =>
            match pendingR.error with
            | some e => { stats := none, error := some e.toApi }
            | none =>
              match exec (some "suspended") with
              | .error e =>
                { stats := none,
                  error := some { message := catchMessage e "Failed to fetch business stats" } }
              | .ok suspendedR =>
                match suspendedR.error with
                | some e => { stats := none, error := some e.toApi }
                | none =>
                  match exec (some "rejected") with
                  | .error e =>
                    { stats := none,
                      error := some { message := catchMessage e "Failed to fetch business stats" } }
                  | .ok rejectedR =>
                    match rejectedR.error with
                    | some e => { stats := none, error := some e.toApi }
                    | none =>
                      { stats := some
                          { total := totalR.count.getD 0,
                            active := activeR.count.getD 0,
                            pending := pendingR.count.getD 0,
                            suspended := suspendedR.count.getD 0,
                            rejected := rejectedR.count.getD 0 },
                        error := none }

/-! ### serviceService.ts -/

structure ServiceQueryParams where
  status : Option ServiceStatus := none
  categoryId : Option String := none
  businessId : Option String := none
  search : Option String := none
  page : Option Nat := none
  pageSize : Option Nat := none
  sortBy : Option String := none
  sortOrder : Option String := none

structure ServiceResponse where
  service : Option Service
  error : Option ApiError

structure ServicesResponse where
  data : Option (PaginatedResponse Service)
  error : Option ApiError

structure ServiceStats where
  total : Nat
  active : Nat
  pending : Nat
  suspended : Nat
  rejected : Nat
  requestDeletion : Nat
deriving Repr, DecidableEq

structure ServiceStatsResponse where
  stats : Option ServiceStats
  error : Option ApiError
deriving Repr, DecidableEq

/-- The query chain built by getServices before it is awaited. -/
def getServicesQuery (params : ServiceQueryParams) : ListQuery :=
  let page := params.page.getD 1
  let pageSize := params.pageSize.getD 10
  let sortBy := params.sortBy.getD "created_at"
  let sortOrder := params.sortOrder.getD "desc"
  let offset := (page - 1) * pageSize
  let statusF := match params.status with
    | some st => [QueryFilter.eqF "status" st.str]
    | none => []
  let categoryF := match truthyStr params.categoryId with
    | some c => [QueryFilter.eqF "category_id" c]
    | none => []
  let businessF := match truthyStr params.businessId with
    | some b => [QueryFilter.eqF "business_id" b]
    | none => []
  let searchF := match truthyStr params.search with
    | some s => [QueryFilter.orF
        ("title.ilike.%" ++ s ++ "%,description.ilike.%" ++ s ++ "%")]
    | none => []
  { table := "services",
    filters := statusF ++ categoryF ++ businessF ++ searchF,
    sortBy := sortBy,
    ascending := sortOrder = "asc",
    rangeFrom := offset,
    rangeTo := offset + pageSize - 1 }

/-- getServices: translation of the awaited reply into a ServicesResponse. -/
def getServices (params : ServiceQueryParams)
    (outcome : Except JsError (StoreListReply Service)) : ServicesResponse :=
  match outcome with
  | .error e =>
    { data := none,
      error := some { message := catchMessage e "Failed to fetch services" } }
  | .ok reply =>
    match reply.error with
    | some e => { data := none, error := some e.toApi }
    | none =>
      let page := params.page.getD 1
      let pageSize := params.pageSize.getD 10
      let total := reply.count.getD 0
      { data := some
          { data := reply.data, total := total, page := page,
            pageSize := pageSize, totalPages := jsCeilNat total pageSize },
        error := none }

/-- The row transformation of updateServiceStatus: the update payload holds
status and updated_at, and additionally is_active := true when the new
status is active, is_active := false when it is suspended, rejected or
deleted. -/
def applyServiceStatusUpdate (status : ServiceStatus) (now : String)
    (row : Service) : Service :=
  let base := { row with status := status, updated_at := now }
  if status = .active then
    { base with is_active := true }
  else if status = .suspended ∨ status = .rejected ∨ status = .deleted then
    { base with is_active := false }
  else
    base

/-- updateServiceStatus over a store of rows, like updateBusinessStatus. -/
def updateServiceStatus (store : List Service) (id : String)
    (status : ServiceStatus) (now : String)
    (updateError : Option StoreError) : List Service × ServiceResponse :=
  match updateError with
  | some e => (store, { service := none, error := some e.toApi })
  | none =>
    let store2 := store.map (fun r =>
      if r.id = id then applyServiceStatusUpdate status now r else r)
    match singleRow (store2.filter (fun r => r.id = id)) with
    | some row => (store2, { service := some row, error := none })
    | none => (store2, { service := none, error := some noRowError.toApi })

/-- getServiceStats: six sequential head-count queries on the services
table — total, then statuses active, pending, suspended, rejected,
requestDeletion — aborting with the first failure. -/
def getServiceStats (exec : Option String → Except JsError CountReply) :
    ServiceStatsResponse :=
  match exec none with
  | .error e =>
    { stats := none,
      error := some { message := catchMessage e "Failed to fetch service stats" } }
  | .ok totalR =>
    match totalR.error with
    | some e => { stats := none, error := some e.toApi }
    | none =>
      match exec (some "active") with
      | .error e =>
        { stats := none,
          error := some { message := catchMessage e "Failed to fetch service stats" } }
      | .ok activeR =>
        match activeR.error with
        | some e => { stats := none, error := some e.toApi }
        | none =>
          match exec (some "pending") with
          | .error e =>
            { stats := none,
              error := some { message := catchMessage e "Failed to fetch service stats" } }
          | .ok pendingR =>
            match pendingR.error with
            | some e => { stats := none, error := some e.toApi }
            | none =>
              match exec (some "suspended") with
              | .error e =>
                { stats := none,
                  error := some { message := catchMessage e "Failed to fetch service stats" } }
              | .ok suspendedR =>
                match suspendedR.error with
                | some e => { stats := none, error := some e.toApi }
                | none =>
                  match exec (some "rejected") with
                  | .error e =>
                    { stats := none,
                      error := some { message := catchMessage e "Failed to fetch service stats" } }
                  | .ok rejectedR =>
                    match rejectedR.error with
                    | some e => { stats := none, error := some e.toApi }
                    | none =>
                      match exec (some "requestDeletion") with
                      | .error e =>
                        { stats := none,
                          error := some { message := catchMessage e "Failed to fetch service stats" } }
                      | .ok requestDeletionR =>
                        match requestDeletionR.error with
                        | some e => { stats := none, error := some e.toApi }
                        | none =>
                          { stats := some
                              { total := totalR.count.getD 0,
                                active := activeR.count.getD 0,
                                pending := pendingR.count.getD 0,
                                suspended := suspendedR.count.getD 0,
                                rejected := rejectedR.count.getD 0,
                                requestDeletion := requestDeletionR.count.getD 0 },
                            error := none }

/-! ### companyService.ts -/

structure CompanyResponse where
  company : Option Company
  error : Option ApiError

/-- The row transformation of updateCompanyStatus: the update payload holds
status and updated_at; when approving it additionally sets approved_at and
is_verified := true, and when rejecting or suspending it sets
is_verified := false (the approved_at timestamp is not cleared). -/
def applyCompanyStatusUpdate (status : CompanyStatus) (now : String)
    (row : Company) : Company :=
  let base := { row with status := status, updated_at := now }
  let base2 :=
    if status = .approved then
      { base with approved_at := some now, is_verified := true }
    else base
  if status = .rejected ∨ status = .suspended then
    { base2 with is_verified := false }
  else base2

/-- updateCompanyStatus over a store of rows, like updateBusinessStatus. -/
def updateCompanyStatus (store : List Company) (id : String)
    (status : CompanyStatus) (now : String)
    (updateError : Option StoreError) : List Company × CompanyResponse :=
  match updateError with
  | some e => (store, { company := none, error := some e.toApi })
  | none =>
    let store2 := store.map (fun r =>
      if r.id = id then applyCompanyStatusUpdate status now r else r)
    match singleRow (store2.filter (fun r => r.id = id)) with
    | some row => (store2, { company := some row, error := none })
    | none => (store2, { company := none, error := some noRowError.toApi })

/-! ### transactionService.ts -/

structure TransactionQueryParams where
  status : Option TransactionStatus := none
  paymentProvider : Option String := none
  dateFrom : Option String := none
  dateTo : Option String := none
  search : Option String := none
  page : Option Nat := none
  pageSize : Option Nat := none
  sortBy : Option String := none
  sortOrder : Option String := none

structure TransactionsResponse where
  data : Option (PaginatedResponse Transaction)
  error : Option ApiError

/-- The query chain built by getTransactions before it is awaited (the
payments table). -/
def getTransactionsQuery (params : TransactionQueryParams) : ListQuery :=
  let page := params.page.getD 1
  let pageSize := params.pageSize.getD 10
  let sortBy := params.sortBy.getD "created_at"
  let sortOrder := params.sortOrder.getD "desc"
  let offset := (page - 1) * pageSize
  let statusF := match params.status with
    | some st => [QueryFilter.eqF "status" st.str]
    | none => []
  let providerF := match truthyStr params.paymentProvider with
    | some p => [QueryFilter.eqF "payment_provider" p]
    | none => []
  let fromF := match truthyStr params.dateFrom with
    | some d => [QueryFilter.gteF "created_at" d]
    | none => []
  let toF := match truthyStr params.dateTo with
    | some d => [QueryFilter.lteF "created_at" d]
    | none => []
  let searchF := match truthyStr params.search with
    | some s => [QueryFilter.orF
        ("order_id.ilike.%" ++ s ++ "%,description.ilike.%" ++ s ++
         "%,provider_payment_id.ilike.%" ++ s ++ "%")]
    | none => []
  { table := "payments",
    filters := statusF ++ providerF ++ fromF ++ toF ++ searchF,
    sortBy := sortBy,
    ascending := sortOrder = "asc",
    rangeFrom := offset,
    rangeTo := offset + pageSize - 1 }

/-- getTransactions: translation of the awaited reply into a
TransactionsResponse. -/
def getTransactions (params : TransactionQueryParams)
    (outcome : Except JsError (StoreListReply Transaction)) :
    TransactionsResponse :=
  match outcome with
  | .error e =>
    { data := none,
      error := some { message := catchMessage e "Failed to fetch transactions" } }
  | .ok reply =>
    match reply.error with
    | some e => { data := none, error := some e.toApi }
    | none =>
      let page := params.page.getD 1
      let pageSize := params.pageSize.getD 10
      let total := reply.count.getD 0
      { data := some
          { data := reply.data, total := total, page := page,
            pageSize := pageSize, totalPages := jsCeilNat total pageSize },
        error := none }

/-! ### legalPageService.ts -/

structure LegalPageResponse where
  legalPage : Option LegalPage
  error : Option ApiError
deriving Repr, DecidableEq

structure LegalPagesResponse where
  legalPages : Option (List LegalPage)
  error : Option ApiError
deriving Repr, DecidableEq

/-- interface LegalPageFilters (src/types/legalPage.ts); pageType is one of
the LegalPageType literals. -/
structure LegalPageFilters where
  pageType : Option String := none
  isActive : Option Bool := none
  search : Option String := none

/-- interface CreateLegalPageInput (src/types/legalPage.ts). -/
structure CreateLegalPageInput where
  title : String
  slug : String
  page_type : String
  content : String

/-- interface UpdateLegalPageInput (src/types/legalPage.ts). -/
structure UpdateLegalPageInput where
  title : Option String := none
  slug : Option String := none
  content : Option String := none
  is_active : Option Bool := none

/-- The filter steps built by getLegalPages, in source order: pageType when
truthy, isActive when not undefined (false included), search when truthy
(the ordering by updated_at descending is fixed). -/
def getLegalPagesFilters (filters : LegalPageFilters) : List QueryFilter :=
  let typeF := match truthyStr filters.pageType with
    | some t => [QueryFilter.eqF "page_type" t]
    | none => []
  let activeF := match filters.isActive with
    | some b => [QueryFilter.eqF "is_active" (if b then "true" else "false")]
    | none => []
  let searchF := match truthyStr filters.search with
    | some s => [QueryFilter.orF
        ("title.ilike.%" ++ s ++ "%,slug.ilike.%" ++ s ++ "%")]
    | none => []
  typeF ++ activeF ++ searchF

/-- getLegalPages: translation of the awaited reply (no count, no paging)
into a LegalPagesResponse. -/
def getLegalPages (outcome : Except JsError (StoreListReply LegalPage)) :
    LegalPagesResponse :=
  match outcome with
  | .error e =>
    { legalPages := none,
      error := some { message := catchMessage e "Failed to fetch legal pages" } }
  | .ok reply =>
    match reply.error with
    | some e => { legalPages := none, error := some e.toApi }
    | none => { legalPages := some reply.data, error := none }

/-- getLegalPageById: .eq on id then .single(). -/
def getLegalPageById (store : List LegalPage) (id : String) :
    LegalPageResponse :=
  match singleRow (store.filter (fun p => p.id = id)) with
  | some row => { legalPage := some row, error := none }
  | none => { legalPage := none, error := some noRowError.toApi }

/-- createLegalPage over a store of rows: first the uniqueness probe
(select id, .eq on slug, .single(), only the data field consulted), which
aborts with the duplicate-slug message when it yields a row; then the
insert, whose generated id and timestamps arrive as newId and now, and
whose store-reported failure arrives as insertError. -/
def createLegalPage (store : List LegalPage) (input : CreateLegalPageInput)
    (newId now : String) (insertError : Option StoreError) :
    List LegalPage × LegalPageResponse :=
  match singleRow (store.filter (fun p => p.slug = input.slug)) with
  | some _ =>
    (store,
     { legalPage := none,
       error := some { message := "A legal page with this slug already exists" } })
  | none =>
    match insertError with
    | some e => (store, { legalPage := none, error := some e.toApi })
    | none =>
      let row : LegalPage :=
        { id := newId, title := input.title, slug := input.slug,
          page_type := input.page_type, content := input.content,
          is_active := true, created_at := now, updated_at := now }
      (store ++ [row], { legalPage := some row, error := none })

/-- The row transformation of updateLegalPage: the update payload spreads
the defined input fields and sets updated_at. -/
def applyLegalPageUpdate (input : UpdateLegalPageInput) (now : String)
    (row : LegalPage) : LegalPage :=
  { row with
    title := input.title.getD row.title,
    slug := input.slug.getD row.slug,
    content := input.content.getD row.content,
    is_active := input.is_active.getD row.is_active,
    updated_at := now }

/-- The update phase of updateLegalPage (shared by both branches of the
slug check): apply the payload to the matching row and return it via
.select().single(). -/
def runLegalPageUpdate (store : List LegalPage) (id : String)
    (input : UpdateLegalPageInput) (now : String)
    (updateError : Option StoreError) : List LegalPage × LegalPageResponse :=
  match updateError with
  | some e => (store, { legalPage := none, error := some e.toApi })
  | none =>
    let store2 := store.map (fun p =>
      if p.id = id then applyLegalPageUpdate input now p else p)
    match singleRow (store2.filter (fun p => p.id = id)) with
    | some row => (store2, { legalPage := some row, error := none })
    | none => (store2, { legalPage := none, error := some noRowError.toApi })

/-- updateLegalPage over a store of rows: when the input slug is truthy
(`if (input.slug)` — defined and non-empty), the uniqueness probe
(.eq on slug, .neq on id, .single(), only the data field consulted) aborts
with the duplicate-slug message when it yields a row; then the update
runs. -/
def updateLegalPage (store : List LegalPage) (id : String)
    (input : UpdateLegalPageInput) (now : String)
    (updateError : Option StoreError) : List LegalPage × LegalPageResponse :=
  match truthyStr input.slug with
  | some s =>
    match singleRow (store.filter (fun p => p.slug = s ∧ ¬ p.id = id)) with
    | some _ =>
      (store,
       { legalPage := none,
         error := some { message := "A legal page with this slug already exists" } })
    | none => runLegalPageUpdate store id input now updateError
  | none => runLegalPageUpdate store id input now updateError

/-- deleteLegalPage: .delete().eq on id. -/
def deleteLegalPage (store : List LegalPage) (id : String)
    (outcome : Except JsError (Option StoreError)) :
    List LegalPage × Option ApiError :=
  match outcome with
  | .error e =>
    (store, some { message := catchMessage e "Failed to delete legal page" })
  | .ok (some e) => (store, some e.toApi)
  | .ok none => (store.filter (fun p => ¬ p.id = id), none)

/-! ### authService.ts -/

/-- The auth-layer user object returned by supabase.auth (only its id is
consulted). -/
structure AuthUser where
  id : String
deriving Repr, DecidableEq

/-- The auth-layer session object (expires_at may be absent; the code
substitutes 0). -/
structure SessionTok where
  access_token : String
  refresh_token : String
  expires_at : Option Nat := none
deriving Repr, DecidableEq

/-- An AuthError from supabase.auth: message, code and HTTP status. -/
structure AuthErr where
  message : String
  code : Option String := none
  status : Option Nat := none
deriving Repr, DecidableEq

/-- Reply of signInWithPassword: destructured as { data: { user, session },
error }. -/
structure SignInReply where
  user : Option AuthUser := none
  session : Option SessionTok := none
  error : Option AuthErr := none
deriving Repr, DecidableEq

/-- Reply of signUp: destructured as { data: { user }, error }. -/
structure SignUpReply where
  user : Option AuthUser := none
  error : Option AuthErr := none
deriving Repr, DecidableEq

/-- The session part of interface SessionResponse. -/
structure SessionOut where
  access_token : String
  refresh_token : String
  expires_at : Nat
deriving Repr, DecidableEq

/-- interface SessionResponse. -/
structure SessionResponse where
  session : Option SessionOut
  user : Option UserRow
  error : Option ApiError
deriving Repr, DecidableEq

/-- interface AuthResponse. -/
structure AuthResponse where
  user : Option UserRow
  error : Option ApiError
deriving Repr, DecidableEq

/-- interface CreateUserInput (src/types/user.ts). -/
structure CreateUserInput where
  email : String
  password : String
  full_name : String
  user_type : String
deriving Repr, DecidableEq

/-- login(email, password): signIn is the reply (or exception) of
signInWithPassword, profile the reply of the users-table .single() fetch
for the authenticated id.  The Bool records whether
supabase.auth.signOut() was invoked. -/
def login (signIn : Except JsError SignInReply)
    (profile : Except JsError (Except StoreError UserRow)) :
    SessionResponse × Bool :=
  match signIn with
  | .error e =>
    ({ session := none, user := none,
       error := some { message := catchMessage e "An unexpected error occurred" } },
     false)
  | .ok r =>
    match r.error with
    | some ae =>
      ({ session := none, user := none,
         error := some { message := ae.message, code := ae.code,
                         status := ae.status } },
       false)
    | none =>
      match r.user with
      | none =>
        ({ session := none, user := none,
           error := some { message := "Authentication failed. Please try again." } },
         false)
      | some _ =>
        match profile with
        | .error e =>
          ({ session := none, user := none,
             error := some { message := catchMessage e "An unexpected error occurred" } },
           false)
        | .ok (.error ue) =>
          ({ session := none, user := none,
             error := some { message := "Failed to verify user profile.",
                             code := some ue.code } },
           true)
        | .ok (.ok userData) =>
          if userData.user_type ≠ "admin" then
            ({ session := none, user := none,
               error := some { message := "Access denied. Admin privileges required." } },
             true)
          else
            ({ session := r.session.map (fun s =>
                 { access_token := s.access_token,
                   refresh_token := s.refresh_token,
                   expires_at := s.expires_at.getD 0 }),
               user := some userData, error := none },
             false)

/-- register(input): signUp is the reply (or exception) of auth.signUp,
insert the reply of the users-table profile insert.  The callerType
argument records the user_type of whoever is authenticated when the
function is called (none when nobody is); the body never consults it —
the source performs no admin check on this path (its doc comment only
says existing admins SHOULD be the callers). -/
def register (_input : CreateUserInput) (_callerType : Option String)
    (signUp : Except JsError SignUpReply)
    (insert : Except JsError (Except StoreError UserRow)) : AuthResponse :=
  match signUp with
  | .error e =>
    { user := none,
      error := some { message := catchMessage e "Registration failed" } }
  | .ok r =>
    match r.error with
    | some ae =>
      { user := none,
        error := some { message := ae.message, code := ae.code,
                        status := ae.status } }
    | none =>
      match r.user with
      | none =>
        { user := none,
          error := some { message := "Registration failed. Please try again." } }
      | some _ =>
        match insert with
        | .error e =>
          { user := none,
            error := some { message := catchMessage e "Registration failed" } }
        | .ok (.error ue) => { user := none, error := some ue.toApi }
        | .ok (.ok row) => { user := some row, error := none }

/-! ### The usePagination hook (src/hooks/usePagination.ts).
The three useState cells page, pageSize and total become one state record;
each callback becomes a state-transformer.  JavaScript numbers are modelled
as Int (setPage may receive any integer and clamps it). -/

structure PagState where
  page : Int
  pageSize : Int
  total : Int
deriving Repr, DecidableEq

/-- Embedding of `Math.ceil(total / pageSize)` for an integer total and a
positive integer pageSize: the ceiling of the rational total / pageSize,
rendered with floor division (for every pageSize >= 1 and every total,
`(total + pageSize - 1).fdiv pageSize` equals that ceiling). -/
def jsCeil (total pageSize : Int) : Int :=
  (total + pageSize - 1).fdiv pageSize

/-- `totalPages = Math.max(1, Math.ceil(total / pageSize))`. -/
def PagState.totalPages (s : PagState) : Int :=
  max 1 (jsCeil s.total s.pageSize)

/-- `offset = (page - 1) * pageSize`. -/
def PagState.offset (s : PagState) : Int :=
  (s.page - 1) * s.pageSize

/-- `canGoNext = page < totalPages`. -/
def PagState.canGoNext (s : PagState) : Bool :=
  s.page < s.totalPages

/-- `canGoPrev = page > 1`. -/
def PagState.canGoPrev (s : PagState) : Bool :=
  s.page > 1

/-- The loop `for (let i = a; i <= b; i++) pages.push(i)` producing the list
of integers from a to b inclusive. -/
def intRange (a b : Int) : List Int :=
  if a ≤ b then a :: intRange (a + 1) b else []
termination_by (b + 1 - a).toNat
decreasing_by omega

/-- Embedding of the pageNumbers computation (maxVisiblePages = 5). -/
def PagState.pageNumbers (s : PagState) : List Int :=
  let tp := s.totalPages
  if tp ≤ 5 then
    intRange 1 tp
  else
    let start0 := max 1 (s.page - 2)
    let stop := min tp (start0 + 4)
    let start1 := if stop - start0 < 4 then max 1 (stop - 4) else start0
    intRange start1 stop

/-- `setPage`: stores `Math.max(1, Math.min(newPage, totalPages))`. -/
def PagState.setPage (s : PagState) (newPage : Int) : PagState :=
  { s with page := max 1 (min newPage s.totalPages) }

/-- `setPageSize`: stores the new page size and resets page to 1. -/
def PagState.setPageSize (s : PagState) (newPageSize : Int) : PagState :=
  { s with pageSize := newPageSize, page := 1 }

/-- `setTotal`: stores the new total and clamps page down to the recomputed
total-page count when it is now out of bounds. -/
def PagState.setTotal (s : PagState) (newTotal : Int) : PagState :=
  let newTotalPages := max 1 (jsCeil newTotal s.pageSize)
  { s with
    total := newTotal,
    page := if s.page > newTotalPages then newTotalPages else s.page }

/-- `nextPage`: increments page only when canGoNext. -/
def PagState.nextPage (s : PagState) : PagState :=
  if s.canGoNext then { s with page := s.page + 1 } else s

/-- `prevPage`: decrements page only when canGoPrev. -/
def PagState.prevPage (s : PagState) : PagState :=
  if s.canGoPrev then { s with page := s.page - 1 } else s

/-- The invariant claimed for the hook state. -/
def PagInv (s : PagState) : Prop :=
  1 ≤ s.page ∧ s.page ≤ s.totalPages

instance (s : PagState) : Decidable (PagInv s) :=
  inferInstanceAs (Decidable (_ ∧ _))

/-! ### retryOperation (src/utils/errorHandling.ts).
The awaited operation becomes a function from the attempt index to an
Except outcome; the helper returns the final outcome together with the list
of waiting times it would sleep between attempts. -/

/-- Body of the for-loop of retryOperation, by recursion on the number of
retries still allowed (`maxRetries - attempt`); fuel = 0 means
`attempt === maxRetries`, where the last error is rethrown. -/
def retryGo {α : Type} (ops : Nat → Except String α) (delay : Nat)
    (backoff : Bool) (attempt : Nat) : Nat → Except String α × List Nat
  | 0 => (ops attempt, [])
  | fuel + 1 =>
    match ops attempt with
    | .ok v => (.ok v, [])
    | .error _ =>
      let waitTime := if backoff then delay * 2 ^ attempt else delay
      let rest := retryGo ops delay backoff (attempt + 1) fuel
      (rest.1, waitTime :: rest.2)

/-- `retryOperation(operation, maxRetries, delay, backoff)`: runs the
operation for attempt = 0 .. maxRetries, returning the first success or the
last error, sleeping `backoff ? delay * 2 ^ attempt : delay` between failed
attempts.  The second component records those waiting times in order. -/
def retryOperation {α : Type} (ops : Nat → Except String α)
    (maxRetries : Nat) (delay : Nat) (backoff : Bool) :
    Except String α × List Nat :=
  retryGo ops delay backoff 0 maxRetries

/-! ### generateSlug (legalPageService.ts).
The chain lowercases, trims, removes every character outside the class
[\w\s-] (global replace with the empty string), replaces each whitespace
run \s+ by one hyphen, and collapses each hyphen run by one hyphen —
modelled character-wise on the underlying char list.  The whitespace class
is the core whitespace set (space, tab, carriage return, newline); the
word class \w of the regex is [A-Za-z0-9_]. -/

/-- The regex whitespace class as used by trim and by the two \s steps. -/
def isSpc (c : Char) : Bool := c.isWhitespace

/-- The regex word class \w: ASCII letters, digits and underscore. -/
def isWordChar (c : Char) : Bool := c.isAlphanum || c = '_'

/-- A character surviving the removal step: it belongs to the class [\w\s-]. -/
def keepChar (c : Char) : Bool := isWordChar c || isSpc c || c = '-'

/-- `.trim()`: drop leading and trailing whitespace. -/
def jsTrim (l : List Char) : List Char :=
  ((l.dropWhile isSpc).reverse.dropWhile isSpc).reverse

/-- A global replacement of runs: every
maximal run of characters satisfying p becomes the single character r.
The flag records whether the previous character belonged to a run. -/
def squashAux (p : Char → Bool) (r : Char) : Bool → List Char → List Char
  | _, [] => []
  | true, c :: cs =>
    if p c then squashAux p r true cs
    else c :: squashAux p r false cs
  | false, c :: cs =>
    if p c then r :: squashAux p r true cs
    else c :: squashAux p r false cs

/-- The slug pipeline on a character list, steps in source order. -/
def slugChars (title : List Char) : List Char :=
  squashAux (fun c => c = '-') '-' false
    (squashAux isSpc '-' false
      (List.filter keepChar
        (jsTrim (title.map Char.toLower))))

/-- generateSlug(title). -/
def generateSlug (title : String) : String :=
  ⟨slugChars title.data⟩

/-- The character alphabet the claim allows in a slug: lowercase letters,
digits, underscore, hyphen. -/
def slugAllowed (c : Char) : Prop :=
  c.isLower = true ∨ c.isDigit = true ∨ c = '_' ∨ c = '-'

/-! ### Concrete sample rows and oracles used as test inputs -/

/-- A concrete business row. -/
def sampleBusiness : Business :=
  { id := "b1", name := "Cafe Central", description := none,
    logo_url := none, address := "12 Main Street",
    contact_email := "owner@cafe.test", contact_phone := [],
    company_id := "c1", category_id := none, subcategory_id := none,
    status := .pending, rating := 4, business_hours := [],
    latitude := none, longitude := none, currency := "USD",
    created_at := "2024-01-01T00:00:00Z",
    updated_at := "2024-01-01T00:00:00Z" }

/-- A concrete legal page whose slug is the empty string. -/
def samplePageEmptySlug : LegalPage :=
  { id := "p1", title := "Untitled", slug := "", page_type := "other",
    content := "x", is_active := true,
    created_at := "2024-01-01T00:00:00Z",
    updated_at := "2024-01-01T00:00:00Z" }

/-- A concrete legal page with slug b. -/
def samplePageB : LegalPage :=
  { id := "p2", title := "Terms", slug := "b", page_type := "terms",
    content := "y", is_active := true,
    created_at := "2024-01-01T00:00:00Z",
    updated_at := "2024-01-01T00:00:00Z" }

/-- A count oracle under which every count query succeeds with 0, except
that the count of rows with status removed is 100. -/
def countOracleRemoved100 : Option String → Except JsError CountReply :=
  fun q =>
    match q with
    | some "removed" => .ok { count := some 100, error := none }
    | _ => .ok { count := some 0, error := none }

/-- A count oracle like countOracleRemoved100, except that the count query
for status removed throws. -/
def countOracleRemovedThrows : Option String → Except JsError CountReply :=
  fun q =>
    match q with
    | some "removed" => .error .otherThrown
    | _ => .ok { count := some 0, error := none }

/-- The status filters of the five head-count queries getBusinessStats
issues, in order (none is the unfiltered total). -/
def businessStatsFilters : List (Option String) :=
  [none, some "active", some "pending", some "suspended", some "rejected"]

/-- The status filters of the six head-count queries getServiceStats
issues, in order. -/
def serviceStatsFilters : List (Option String) :=
  [none, some "active", some "pending", some "suspended", some "rejected",
   some "requestDeletion"]

/-- A count oracle under which every count query succeeds with 3. -/
def countOracleAll3 : Option String → Except JsError CountReply :=
  fun _ => .ok { count := some 3, error := none }

/-- A concrete non-admin profile row. -/
def sampleCustomerRow : UserRow :=
  { id := "u1", full_name := "Jo Doe", email := "jo@test.dev",
    phone := none, phone_number := none, profile_image := none,
    user_type := "customer", is_active := true,
    is_email_verified := false, is_phone_verified := false,
    created_at := "2024-01-01T00:00:00Z",
    updated_at := "2024-01-01T00:00:00Z" }

/-- A concrete registration input. -/
def sampleCreateInput : CreateUserInput :=
  { email := "jo@test.dev", password := "Password1",
    full_name := "Jo Doe", user_type := "customer" }

/-! ## Helper lemmas -/

theorem char_isUpper_iff (c : Char) :
    c.isUpper = true ↔ 65 ≤ c.toNat ∧ c.toNat ≤ 90 := by
  simp [Char.isUpper, Char.toNat, UInt32.le_def, BitVec.le_def, UInt32.toNat]

theorem char_isLower_iff (c : Char) :
    c.isLower = true ↔ 97 ≤ c.toNat ∧ c.toNat ≤ 122 := by
  simp [Char.isLower, Char.toNat, UInt32.le_def, BitVec.le_def, UInt32.toNat]

theorem char_isDigit_iff (c : Char) :
    c.isDigit = true ↔ 48 ≤ c.toNat ∧ c.toNat ≤ 57 := by
  simp [Char.isDigit, Char.toNat, UInt32.le_def, BitVec.le_def, UInt32.toNat]

theorem char_toNat_ofNat_valid (n : Nat) (h : n < 55296) :
    (Char.ofNat n).toNat = n := by
  have hv : n.isValidChar := Or.inl h
  simp [Char.ofNat, hv, Char.ofNatAux, Char.toNat, UInt32.toNat, UInt32.ofNat']

theorem char_toLower_not_upper (c : Char) :
    (Char.toLower c).isUpper = false := by
  unfold Char.toLower
  simp only []
  by_cases h : c.toNat ≥ 65 ∧ c.toNat ≤ 90
  · rw [if_pos h]
    have hn : (Char.ofNat (c.toNat + 32)).toNat = c.toNat + 32 :=
      char_toNat_ofNat_valid _ (by omega)
    rw [Bool.eq_false_iff]
    intro hu
    have := (char_isUpper_iff _).mp hu
    omega
  · rw [if_neg h]
    rw [Bool.eq_false_iff]
    intro hu
    have := (char_isUpper_iff _).mp hu
    omega

theorem char_toLower_fix (c : Char) (h : c.isUpper = false) :
    Char.toLower c = c := by
  unfold Char.toLower
  simp only []
  rw [if_neg]
  intro hc
  rw [Bool.eq_false_iff] at h
  exact h ((char_isUpper_iff c).mpr (by omega))

theorem slugAllowed_not_upper {c : Char} (h : slugAllowed c) :
    c.isUpper = false := by
  rw [Bool.eq_false_iff]
  intro hu
  have hu2 := (char_isUpper_iff c).mp hu
  rcases h with h | h | h | h
  · have := (char_isLower_iff c).mp h
    omega
  · have := (char_isDigit_iff c).mp h
    omega
  · subst h
    have : ('_').toNat = 95 := rfl
    omega
  · subst h
    have : ('-').toNat = 45 := rfl
    omega

theorem slugAllowed_not_space {c : Char} (h : slugAllowed c) :
    c.isWhitespace = false := by
  rw [Bool.eq_false_iff]
  intro hws
  have hn : c.toNat = 32 ∨ c.toNat = 9 ∨ c.toNat = 13 ∨ c.toNat = 10 := by
    simp only [Char.isWhitespace, Bool.or_eq_true, decide_eq_true_eq] at hws
    rcases hws with ((h1 | h1) | h1) | h1 <;> subst h1 <;> simp [Char.toNat]
  rcases h with h | h | h | h
  · have := (char_isLower_iff c).mp h
    omega
  · have := (char_isDigit_iff c).mp h
    omega
  · subst h
    have : ('_').toNat = 95 := rfl
    omega
  · subst h
    have : ('-').toNat = 45 := rfl
    omega

theorem slugAllowed_keep {c : Char} (h : slugAllowed c) :
    keepChar c = true := by
  rcases h with h | h | h | h
  · simp [keepChar, isWordChar, Char.isAlphanum, Char.isAlpha, h]
  · simp [keepChar, isWordChar, Char.isAlphanum, h]
  · subst h
    rfl
  · subst h
    rfl

theorem dropWhile_eq_self_of_none {p : Char → Bool} {l : List Char}
    (h : ∀ c ∈ l, p c = false) : l.dropWhile p = l := by
  cases l with
  | nil => rfl
  | cons c cs =>
    rw [List.dropWhile_cons, if_neg]
    simp [h c (List.mem_cons_self c cs)]

theorem jsTrim_eq_self {l : List Char} (h : ∀ c ∈ l, isSpc c = false) :
    jsTrim l = l := by
  unfold jsTrim
  rw [dropWhile_eq_self_of_none h, dropWhile_eq_self_of_none, List.reverse_reverse]
  intro c hc
  exact h c (by simpa using hc)

theorem mem_jsTrim {c : Char} {l : List Char} (h : c ∈ jsTrim l) : c ∈ l := by
  unfold jsTrim at h
  rw [List.mem_reverse] at h
  have h2 := (List.dropWhile_sublist _).mem h
  rw [List.mem_reverse] at h2
  exact (List.dropWhile_sublist _).mem h2

theorem mem_squashAux {p : Char → Bool} {r : Char} {c : Char} :
    ∀ {b : Bool} {l : List Char}, c ∈ squashAux p r b l →
      c = r ∨ (c ∈ l ∧ p c = false) := by
  intro b l
  induction l generalizing b with
  | nil => intro h; cases b <;> simp [squashAux] at h
  | cons x xs ih =>
    intro h
    by_cases hx : p x = true
    · cases b with
      | true =>
        rw [squashAux, if_pos hx] at h
        rcases ih h with h2 | ⟨h2, h3⟩
        · exact Or.inl h2
        · exact Or.inr ⟨List.mem_cons_of_mem _ h2, h3⟩
      | false =>
        rw [squashAux, if_pos hx] at h
        rcases List.mem_cons.mp h with h2 | h2
        · exact Or.inl h2
        · rcases ih h2 with h3 | ⟨h3, h4⟩
          · exact Or.inl h3
          · exact Or.inr ⟨List.mem_cons_of_mem _ h3, h4⟩
    · rw [Bool.not_eq_true] at hx
      have hstep : squashAux p r b (x :: xs) = x :: squashAux p r false xs := by
        cases b <;> rw [squashAux, if_neg (by rw [hx]; exact Bool.false_ne_true)]
      rw [hstep] at h
      rcases List.mem_cons.mp h with h2 | h2
      · subst h2
        exact Or.inr ⟨List.mem_cons_self _ _, hx⟩
      · rcases ih h2 with h3 | ⟨h3, h4⟩
        · exact Or.inl h3
        · exact Or.inr ⟨List.mem_cons_of_mem _ h3, h4⟩

theorem squashAux_head_true {p : Char → Bool} {r : Char} :
    ∀ {l : List Char} {c : Char},
      (squashAux p r true l).head? = some c → p c = false := by
  intro l
  induction l with
  | nil => intro c h; simp [squashAux] at h
  | cons x xs ih =>
    intro c h
    by_cases hx : p x = true
    · rw [squashAux, if_pos hx] at h
      exact ih h
    · rw [Bool.not_eq_true] at hx
      rw [squashAux, if_neg (by rw [hx]; exact Bool.false_ne_true),
        List.head?_cons, Option.some_inj] at h
      subst h
      exact hx

theorem squashAux_chain {p : Char → Bool} {r : Char} :
    ∀ (l : List Char) (b : Bool),
      List.Chain' (fun a c => ¬(p a = true ∧ p c = true)) (squashAux p r b l) := by
  intro l
  induction l with
  | nil => intro b; cases b <;> simp [squashAux]
  | cons x xs ih =>
    intro b
    by_cases hx : p x = true
    · cases b with
      | true =>
        rw [squashAux, if_pos hx]
        exact ih true
      | false =>
        rw [squashAux, if_pos hx]
        rw [List.chain'_cons']
        refine ⟨?_, ih true⟩
        intro y hy
        intro ⟨_, hpy⟩
        rw [squashAux_head_true hy] at hpy
        exact Bool.false_ne_true hpy
    · rw [Bool.not_eq_true] at hx
      have hstep : squashAux p r b (x :: xs) = x :: squashAux p r false xs := by
        cases b <;> rw [squashAux, if_neg (by rw [hx]; exact Bool.false_ne_true)]
      rw [hstep, List.chain'_cons']
      refine ⟨?_, ih false⟩
      intro y _
      intro ⟨hpx, _⟩
      rw [hx] at hpx
      exact Bool.false_ne_true hpx

theorem squashAux_id_of_none {p : Char → Bool} {r : Char} :
    ∀ {l : List Char}, (∀ c ∈ l, p c = false) → squashAux p r false l = l := by
  intro l
  induction l with
  | nil => intro _; rfl
  | cons x xs ih =>
    intro h
    have hx := h x (List.mem_cons_self x xs)
    rw [squashAux, if_neg (by rw [hx]; exact Bool.false_ne_true)]
    rw [ih (fun c hc => h c (List.mem_cons_of_mem _ hc))]

theorem squashAux_hyphen_id :
    ∀ (l : List Char),
      List.Chain' (fun a c => ¬(a = '-' ∧ c = '-')) l →
      squashAux (fun c => c = '-') '-' false l = l ∧
      ((∀ c, l.head? = some c → ¬ c = '-') →
        squashAux (fun c => c = '-') '-' true l = l) := by
  intro l
  induction l with
  | nil => intro _; exact ⟨rfl, fun _ => rfl⟩
  | cons x xs ih =>
    intro hch
    rw [List.chain'_cons'] at hch
    obtain ⟨hhd, htl⟩ := hch
    have ihx := ih htl
    by_cases hx : x = '-'
    · subst hx
      constructor
      · rw [squashAux, if_pos (by simp)]
        have : squashAux (fun c => c = '-') '-' true xs = xs := by
          apply ihx.2
          intro c hc hceq
          exact hhd c hc ⟨rfl, hceq⟩
        rw [this]
      · intro hhead
        exact absurd rfl (hhead '-' rfl)
    · have hcond : ¬ ((fun c => decide (c = '-')) x = true) := by
        simp [hx]
      constructor
      · rw [squashAux, if_neg hcond, ihx.1]
      · intro _
        rw [squashAux, if_neg hcond, ihx.1]

theorem map_eq_self_of_fix {f : Char → Char} :
    ∀ {l : List Char}, (∀ c ∈ l, f c = c) → l.map f = l := by
  intro l
  induction l with
  | nil => intro _; rfl
  | cons x xs ih =>
    intro h
    rw [List.map_cons, h x (List.mem_cons_self x xs),
      ih (fun c hc => h c (List.mem_cons_of_mem _ hc))]

theorem filter_eq_self_of_all {p : Char → Bool} :
    ∀ {l : List Char}, (∀ c ∈ l, p c = true) → l.filter p = l := by
  intro l
  induction l with
  | nil => intro _; rfl
  | cons x xs ih =>
    intro h
    rw [List.filter_cons, if_pos (h x (List.mem_cons_self x xs)),
      ih (fun c hc => h c (List.mem_cons_of_mem _ hc))]

theorem slugChars_allowed (l : List Char) :
    ∀ c ∈ slugChars l, slugAllowed c := by
  intro c hc
  unfold slugChars at hc
  rcases mem_squashAux hc with h | ⟨hmid, hnh⟩
  · subst h
    exact Or.inr (Or.inr (Or.inr rfl))
  · rcases mem_squashAux hmid with h | ⟨hfil, hns⟩
    · subst h
      exact Or.inr (Or.inr (Or.inr rfl))
    · have hkeep := List.of_mem_filter hfil
      have htrim := List.mem_of_mem_filter hfil
      have hmap := mem_jsTrim htrim
      obtain ⟨d, _, hd⟩ := List.mem_map.mp hmap
      have hnup : c.isUpper = false := by
        rw [← hd]; exact char_toLower_not_upper d
      simp only [keepChar, isWordChar, Char.isAlphanum, Char.isAlpha,
        Bool.or_eq_true, decide_eq_true_eq] at hkeep
      rcases hkeep with ((((hu | hl) | hdg) | hus) | hsp) | hh
      · rw [hnup] at hu
        exact absurd hu Bool.false_ne_true
      · exact Or.inl hl
      · exact Or.inr (Or.inl hdg)
      · exact Or.inr (Or.inr (Or.inl hus))
      · exact absurd (hns.symm.trans hsp) Bool.false_ne_true
      · exact Or.inr (Or.inr (Or.inr hh))

theorem slugChars_chain (l : List Char) :
    List.Chain' (fun a b => ¬(a = '-' ∧ b = '-')) (slugChars l) := by
  unfold slugChars
  have h := squashAux_chain (p := fun c => c = '-') (r := '-')
    (squashAux isSpc '-' false
      (List.filter keepChar (jsTrim (l.map Char.toLower)))) false
  refine h.imp (fun a b hab => ?_)
  intro ⟨ha, hb⟩
  exact hab ⟨by simp [ha], by simp [hb]⟩

theorem slugChars_id {l : List Char} (hall : ∀ c ∈ l, slugAllowed c)
    (hch : List.Chain' (fun a b => ¬(a = '-' ∧ b = '-')) l) :
    slugChars l = l := by
  unfold slugChars
  have h1 : l.map Char.toLower = l :=
    map_eq_self_of_fix (fun c hc => char_toLower_fix c
      (slugAllowed_not_upper (hall c hc)))
  rw [h1]
  have h2 : jsTrim l = l :=
    jsTrim_eq_self (fun c hc => by
      rw [isSpc]; exact slugAllowed_not_space (hall c hc))
  rw [h2]
  have h3 : l.filter keepChar = l :=
    filter_eq_self_of_all (fun c hc => slugAllowed_keep (hall c hc))
  rw [h3]
  have h4 : squashAux isSpc '-' false l = l :=
    squashAux_id_of_none (fun c hc => by
      rw [isSpc]; exact slugAllowed_not_space (hall c hc))
  rw [h4]
  exact (squashAux_hyphen_id l hch).1

/-- C10: generateSlug yields only lowercase letters, digits, underscores
and hyphens, no whitespace, never two consecutive hyphens, and is
idempotent. -/
theorem C10_generateSlug_normalized_idempotent :
    ∀ t : String,
      (∀ c ∈ (generateSlug t).data, slugAllowed c) ∧
      (∀ c ∈ (generateSlug t).data, c.isWhitespace = false) ∧
      List.Chain' (fun a b => ¬(a = '-' ∧ b = '-')) (generateSlug t).data ∧
      generateSlug (generateSlug t) = generateSlug t := by
  intro t
  have hall : ∀ c ∈ (generateSlug t).data, slugAllowed c :=
    slugChars_allowed t.data
  refine ⟨hall, fun c hc => slugAllowed_not_space (hall c hc),
    slugChars_chain t.data, ?_⟩
  show (⟨slugChars (slugChars t.data)⟩ : String) = ⟨slugChars t.data⟩
  exact congrArg String.mk
    (slugChars_id (slugChars_allowed t.data) (slugChars_chain t.data))

/-- Witness for C10 at the concrete title "Hello,  World--Mix_42!": its
slug is computed, the membership hypotheses are discharged on the
character h, and idempotence is instantiated. -/
theorem C10_witness :
    'h' ∈ (generateSlug "Hello,  World--Mix_42!").data ∧ slugAllowed 'h' ∧
    generateSlug (generateSlug "Hello,  World--Mix_42!") =
      generateSlug "Hello,  World--Mix_42!" := by
  refine ⟨by decide, ?_, ?_⟩
  · exact (C10_generateSlug_normalized_idempotent "Hello,  World--Mix_42!").1
      'h' (by decide)
  · exact (C10_generateSlug_normalized_idempotent "Hello,  World--Mix_42!").2.2.2

/-! ## C5: status enums -/

/-- C5 counterexample: the claim says the Service status enum is the
Business set plus requestDeletion, but as sets of literals it is not —
removed is a Business status and not a Service status. -/
theorem C5_counterexample :
    ¬ (serviceStatusStrings.toFinset =
        insert "requestDeletion" businessStatusStrings.toFinset) := by
  decide

/-- C5 amended: Business and Transaction enums are exactly as claimed, and
the Service enum is the Business set minus removed plus requestDeletion. -/
theorem C5_status_enums :
    businessStatusStrings =
      ["pending", "active", "rejected", "suspended", "removed", "deleted"] ∧
    transactionStatusStrings =
      ["pending", "completed", "failed", "refunded", "cancelled",
       "processing"] ∧
    serviceStatusStrings.toFinset =
      insert "requestDeletion" (businessStatusStrings.toFinset.erase "removed") := by
  decide

/-! ## C2: status updates as single-field mutations -/

/-- C2 counterexample: updateBusinessStatus does not leave every
non-status field of the targeted row unchanged — the store it produces
differs from the store in which only the status field of row b1 was
replaced (updated_at also changed). -/
theorem C2_counterexample :
    (updateBusinessStatus [sampleBusiness] "b1" BusinessStatus.active
      "2025-06-01T00:00:00Z" none).1 ≠
    [{ sampleBusiness with status := BusinessStatus.active }] := by
  decide

/-- C2 amended: each status update rewrites the status field together with
the bookkeeping fields its payload sets — updated_at always; for services
also is_active (true when activating, false when suspending, rejecting or
deleting); for companies also approved_at and is_verified when approving,
and is_verified when rejecting or suspending — and leaves every other
field of the row unchanged; the store functions apply exactly this row
transformation to the rows matching the id. -/
theorem C2_status_update_frame :
    (∀ (r : Business) (st : BusinessStatus) (now : String),
      applyBusinessStatusUpdate st now r =
        { r with status := st, updated_at := now }) ∧
    (∀ (r : Service) (st : ServiceStatus) (now : String),
      applyServiceStatusUpdate st now r =
        { r with
          status := st,
          updated_at := now,
          is_active :=
            if st = ServiceStatus.active then true
            else if st = ServiceStatus.suspended ∨ st = ServiceStatus.rejected ∨
                st = ServiceStatus.deleted then false
            else r.is_active }) ∧
    (∀ (r : Company) (st : CompanyStatus) (now : String),
      applyCompanyStatusUpdate st now r =
        { r with
          status := st,
          updated_at := now,
          approved_at :=
            if st = CompanyStatus.approved then some now else r.approved_at,
          is_verified :=
            if st = CompanyStatus.approved then true
            else if st = CompanyStatus.rejected ∨ st = CompanyStatus.suspended
              then false
            else r.is_verified }) ∧
    (∀ (store : List Business) (id : String) (st : BusinessStatus)
        (now : String),
      (updateBusinessStatus store id st now none).1 =
        store.map (fun r =>
          if r.id = id then applyBusinessStatusUpdate st now r else r)) ∧
    (∀ (store : List Service) (id : String) (st : ServiceStatus)
        (now : String),
      (updateServiceStatus store id st now none).1 =
        store.map (fun r =>
          if r.id = id then applyServiceStatusUpdate st now r else r)) ∧
    (∀ (store : List Company) (id : String) (st : CompanyStatus)
        (now : String),
      (updateCompanyStatus store id st now none).1 =
        store.map (fun r =>
          if r.id = id then applyCompanyStatusUpdate st now r else r)) := by
  refine ⟨fun r st now => rfl, fun r st now => ?_, fun r st now => ?_,
    fun store id st now => ?_, fun store id st now => ?_,
    fun store id st now => ?_⟩
  · cases st <;> rfl
  · cases st <;> rfl
  · rw [updateBusinessStatus]
    cases singleRow ((store.map (fun r =>
        if r.id = id then applyBusinessStatusUpdate st now r else r)).filter
        (fun r => r.id = id)) <;> rfl
  · rw [updateServiceStatus]
    cases singleRow ((store.map (fun r =>
        if r.id = id then applyServiceStatusUpdate st now r else r)).filter
        (fun r => r.id = id)) <;> rfl
  · rw [updateCompanyStatus]
    cases singleRow ((store.map (fun r =>
        if r.id = id then applyCompanyStatusUpdate st now r else r)).filter
        (fun r => r.id = id)) <;> rfl

/-! ## C7: retryOperation -/

theorem retryGo_congr {α : Type} (ops ops2 : Nat → Except String α)
    (delay : Nat) (backoff : Bool) :
    ∀ (fuel attempt : Nat),
      (∀ i, attempt ≤ i → i ≤ attempt + fuel → ops i = ops2 i) →
      retryGo ops delay backoff attempt fuel =
        retryGo ops2 delay backoff attempt fuel := by
  intro fuel
  induction fuel with
  | zero =>
    intro attempt h
    simp only [retryGo]
    rw [h attempt (Nat.le_refl _) (Nat.le_add_right _ _)]
  | succ f ih =>
    intro attempt h
    simp only [retryGo]
    rw [h attempt (Nat.le_refl _) (Nat.le_add_right _ _)]
    cases ops2 attempt with
    | ok v => rfl
    | error e =>
      rw [ih (attempt + 1) (fun i h1 h2 => h i (by omega) (by omega))]

theorem retryGo_first_success {α : Type} (ops : Nat → Except String α)
    (delay : Nat) (backoff : Bool) :
    ∀ (k fuel attempt : Nat) (v : α), k ≤ fuel →
      ops (attempt + k) = .ok v →
      (∀ i, i < k → ∃ e, ops (attempt + i) = .error e) →
      retryGo ops delay backoff attempt fuel =
        (.ok v, (List.range k).map
          (fun j => if backoff then delay * 2 ^ (attempt + j) else delay)) := by
  intro k
  induction k with
  | zero =>
    intro fuel attempt v _ hok _
    rw [Nat.add_zero] at hok
    cases fuel with
    | zero => simp only [retryGo, hok, List.range_zero, List.map_nil]
    | succ f => simp only [retryGo, hok, List.range_zero, List.map_nil]
  | succ k ih =>
    intro fuel attempt v hk hok hfail
    cases fuel with
    | zero => omega
    | succ f =>
      obtain ⟨e, he⟩ := hfail 0 (Nat.succ_pos k)
      rw [Nat.add_zero] at he
      simp only [retryGo, he]
      rw [ih f (attempt + 1) v (by omega)
        (by rw [show attempt + 1 + k = attempt + (k + 1) by omega]; exact hok)
        (fun i hi => by
          rw [show attempt + 1 + i = attempt + (i + 1) by omega]
          exact hfail (i + 1) (by omega))]
      rw [List.range_succ_eq_map, List.map_cons, List.map_map]
      simp only [Prod.mk.injEq, List.cons.injEq, true_and, Nat.add_zero]
      refine List.map_congr_left (fun j _ => ?_)
      simp only [Function.comp, Nat.succ_eq_add_one]
      rw [show attempt + 1 + j = attempt + (j + 1) by omega]

theorem retryGo_all_fail {α : Type} (ops : Nat → Except String α)
    (delay : Nat) (backoff : Bool) (err : Nat → String) :
    ∀ (fuel attempt : Nat),
      (∀ i, i ≤ fuel → ops (attempt + i) = .error (err (attempt + i))) →
      retryGo ops delay backoff attempt fuel =
        (.error (err (attempt + fuel)), (List.range fuel).map
          (fun j => if backoff then delay * 2 ^ (attempt + j) else delay)) := by
  intro fuel
  induction fuel with
  | zero =>
    intro attempt h
    have h0 := h 0 (Nat.le_refl _)
    rw [Nat.add_zero] at h0
    simp only [retryGo, h0, List.range_zero, List.map_nil, Nat.add_zero]
  | succ f ih =>
    intro attempt h
    have h0 := h 0 (by omega)
    rw [Nat.add_zero] at h0
    simp only [retryGo, h0]
    rw [ih (attempt + 1) (fun i hi => by
      rw [show attempt + 1 + i = attempt + (i + 1) by omega]
      exact h (i + 1) (by omega))]
    rw [List.range_succ_eq_map, List.map_cons, List.map_map]
    simp only [Prod.mk.injEq, List.cons.injEq, true_and, Nat.add_zero]
    refine ⟨?_, List.map_congr_left (fun j _ => ?_)⟩
    · rw [show attempt + 1 + f = attempt + (f + 1) by omega]
    · simp only [Function.comp, Nat.succ_eq_add_one]
      rw [show attempt + 1 + j = attempt + (j + 1) by omega]

/-- C7: retryOperation consults the operation only on attempts
0 .. maxRetries (hence at most maxRetries + 1 invocations), returns the
first successful outcome, rethrows the last error when every attempt
fails, and the recorded wait before the k-th retry (index j = k - 1 in the
list) is delay * 2 ^ (k - 1) when backoff is set and delay otherwise. -/
theorem C7_retryOperation_spec {α : Type} (ops : Nat → Except String α)
    (maxRetries delay : Nat) (backoff : Bool) :
    (∀ ops2 : Nat → Except String α, (∀ i, i ≤ maxRetries → ops i = ops2 i) →
      retryOperation ops maxRetries delay backoff =
        retryOperation ops2 maxRetries delay backoff) ∧
    (∀ (k : Nat) (v : α), k ≤ maxRetries → ops k = .ok v →
      (∀ i, i < k → ∃ e, ops i = .error e) →
      retryOperation ops maxRetries delay backoff =
        (.ok v, (List.range k).map
          (fun j => if backoff then delay * 2 ^ j else delay))) ∧
    (∀ err : Nat → String, (∀ i, i ≤ maxRetries → ops i = .error (err i)) →
      retryOperation ops maxRetries delay backoff =
        (.error (err maxRetries), (List.range maxRetries).map
          (fun j => if backoff then delay * 2 ^ j else delay))) := by
  refine ⟨?_, ?_, ?_⟩
  · intro ops2 h
    exact retryGo_congr ops ops2 delay backoff maxRetries 0
      (fun i h1 h2 => h i (by omega))
  · intro k v hk hok hfail
    have := retryGo_first_success ops delay backoff k maxRetries 0 v hk
      (by rw [Nat.zero_add]; exact hok)
      (fun i hi => by rw [Nat.zero_add]; exact hfail i hi)
    rw [retryOperation, this]
    refine congrArg _ (List.map_congr_left (fun j _ => ?_))
    rw [Nat.zero_add]
  · intro err h
    have := retryGo_all_fail ops delay backoff err maxRetries 0
      (fun i hi => by rw [Nat.zero_add]; exact h i hi)
    rw [retryOperation, this, Nat.zero_add]
    refine congrArg _ (List.map_congr_left (fun j _ => ?_))
    rw [Nat.zero_add]

/-- Witness for C7: an operation failing on attempts 0 and 1 and
succeeding on attempt 2, run with maxRetries 3, delay 5 and backoff:
the helper returns the success and waited 5 then 10. -/
theorem C7_witness :
    ((2 : Nat) ≤ 3 ∧
      (fun i => if i < 2 then (Except.error "boom" : Except String Nat)
        else .ok 7) 2 = .ok 7) ∧
    retryOperation
      (fun i => if i < 2 then (Except.error "boom" : Except String Nat)
        else .ok 7) 3 5 true = (.ok 7, [5, 10]) := by
  refine ⟨⟨by omega, rfl⟩, ?_⟩
  have h := (C7_retryOperation_spec
    (fun i => if i < 2 then (Except.error "boom" : Except String Nat)
      else .ok 7) 3 5 true).2.1 2 7 (by omega) rfl
    (fun i hi => ⟨"boom", by
      rw [if_pos]
      omega⟩)
  rw [h]
  rfl

/-! ## C9: usePagination -/

theorem intRange_length (a b : Int) :
    (intRange a b).length = (b + 1 - a).toNat := by
  rw [intRange]
  split
  · next h =>
    rw [List.length_cons, intRange_length (a + 1) b]
    omega
  · next h =>
    rw [List.length_nil]
    omega
termination_by (b + 1 - a).toNat
decreasing_by omega

theorem mem_intRange (a b x : Int) :
    x ∈ intRange a b ↔ a ≤ x ∧ x ≤ b := by
  rw [intRange]
  split
  · next h =>
    rw [List.mem_cons, mem_intRange (a + 1) b x]
    omega
  · next h =>
    simp only [List.mem_nil_iff, false_iff]
    omega
termination_by (b + 1 - a).toNat
decreasing_by omega

theorem intRange_head (a b : Int) (h : a ≤ b) :
    (intRange a b).head? = some a := by
  rw [intRange, if_pos h]
  rfl

theorem intRange_chain (a b : Int) :
    List.Chain' (fun u v => v = u + 1) (intRange a b) := by
  rw [intRange]
  split
  · next h =>
    rw [List.chain'_cons']
    refine ⟨?_, intRange_chain (a + 1) b⟩
    intro y hy
    by_cases h2 : a + 1 ≤ b
    · rw [intRange_head _ _ h2, Option.mem_some_iff] at hy
      omega
    · rw [intRange, if_neg h2] at hy
      simp at hy
  · exact List.chain'_nil
termination_by (b + 1 - a).toNat
decreasing_by omega

theorem totalPages_pos (s : PagState) : 1 ≤ s.totalPages :=
  le_max_left _ _

theorem setPage_inv (s : PagState) (n : Int) : PagInv (s.setPage n) := by
  have h1 : (s.setPage n).totalPages = s.totalPages := rfl
  unfold PagInv
  rw [h1]
  unfold PagState.setPage
  simp only []
  have := totalPages_pos s
  omega

theorem setPageSize_inv (s : PagState) (m : Int) : PagInv (s.setPageSize m) :=
  ⟨le_refl 1, totalPages_pos _⟩

theorem setTotal_inv (s : PagState) (hinv : PagInv s) (t : Int) :
    PagInv (s.setTotal t) := by
  obtain ⟨h1, _⟩ := hinv
  have h2 : (s.setTotal t).totalPages = max 1 (jsCeil t s.pageSize) := rfl
  unfold PagInv
  rw [h2]
  unfold PagState.setTotal
  simp only []
  omega

theorem nextPage_inv (s : PagState) (hinv : PagInv s) : PagInv s.nextPage := by
  obtain ⟨h1, h2⟩ := hinv
  unfold PagState.totalPages at h2
  unfold PagState.nextPage
  by_cases h : s.canGoNext = true
  · rw [if_pos h]
    have h3 : s.page < s.totalPages := by
      unfold PagState.canGoNext at h
      exact of_decide_eq_true h
    unfold PagState.totalPages at h3
    unfold PagInv PagState.totalPages
    dsimp only
    omega
  · rw [if_neg h]
    unfold PagInv PagState.totalPages
    exact ⟨h1, h2⟩

theorem prevPage_inv (s : PagState) (hinv : PagInv s) : PagInv s.prevPage := by
  obtain ⟨h1, h2⟩ := hinv
  unfold PagState.totalPages at h2
  unfold PagState.prevPage
  by_cases h : s.canGoPrev = true
  · rw [if_pos h]
    have h3 : s.page > 1 := by
      unfold PagState.canGoPrev at h
      exact of_decide_eq_true h
    unfold PagInv PagState.totalPages
    dsimp only
    omega
  · rw [if_neg h]
    unfold PagInv PagState.totalPages
    exact ⟨h1, h2⟩

theorem pageNumbers_props (s : PagState) (hinv : PagInv s) :
    s.pageNumbers ≠ [] ∧ s.pageNumbers.length ≤ 5 ∧
    List.Chain' (fun u v => v = u + 1) s.pageNumbers ∧
    (∀ x ∈ s.pageNumbers, 1 ≤ x ∧ x ≤ s.totalPages) := by
  obtain ⟨h1, h2⟩ := hinv
  have htp := totalPages_pos s
  unfold PagState.pageNumbers
  by_cases h5 : s.totalPages ≤ 5
  · rw [if_pos h5]
    refine ⟨?_, ?_, intRange_chain 1 s.totalPages, ?_⟩
    · rw [intRange, if_pos htp]
      exact List.cons_ne_nil _ _
    · rw [intRange_length]
      omega
    · intro x hx
      exact (mem_intRange 1 s.totalPages x).mp hx
  · rw [if_neg h5]
    simp only []
    set start0 := max 1 (s.page - 2) with hstart0
    set stop := min s.totalPages (start0 + 4) with hstop
    set start1 := if stop - start0 < 4 then max 1 (stop - 4) else start0
      with hstart1
    have hb : 1 ≤ start1 ∧ start1 ≤ stop ∧ stop ≤ s.totalPages ∧
        stop - start1 ≤ 4 := by
      rw [hstart1]
      by_cases hc : stop - start0 < 4
      · rw [if_pos hc]
        omega
      · rw [if_neg hc]
        omega
    refine ⟨?_, ?_, intRange_chain start1 stop, ?_⟩
    · rw [intRange, if_pos (by omega)]
      exact List.cons_ne_nil _ _
    · rw [intRange_length]
      omega
    · intro x hx
      have := (mem_intRange start1 stop x).mp hx
      omega

/-- C9: assuming the invariant 1 <= page <= totalPages (with totalPages =
max(1, ceil(total / pageSize))) and pageSize >= 1, every pagination
operation preserves the invariant, the offset is non-negative, and
pageNumbers is a non-empty run of at most 5 consecutive integers inside
[1, totalPages]. -/
theorem C9_usePagination_invariant (s : PagState) (hinv : PagInv s)
    (hps : 1 ≤ s.pageSize) :
    (∀ n : Int, PagInv (s.setPage n)) ∧
    (∀ m : Int, 1 ≤ m → PagInv (s.setPageSize m)) ∧
    (∀ t : Int, PagInv (s.setTotal t)) ∧
    PagInv s.nextPage ∧
    PagInv s.prevPage ∧
    0 ≤ s.offset ∧
    s.pageNumbers ≠ [] ∧
    s.pageNumbers.length ≤ 5 ∧
    List.Chain' (fun u v => v = u + 1) s.pageNumbers ∧
    (∀ x ∈ s.pageNumbers, 1 ≤ x ∧ x ≤ s.totalPages) := by
  have hpn := pageNumbers_props s hinv
  have hp := hinv.1
  exact ⟨setPage_inv s, fun m _ => setPageSize_inv s m, setTotal_inv s hinv,
    nextPage_inv s hinv, prevPage_inv s hinv,
    mul_nonneg (by omega) (by omega),
    hpn.1, hpn.2.1, hpn.2.2.1, hpn.2.2.2⟩

/-- Witness for C9 at the concrete state page 2, pageSize 10, total 95
(totalPages 10): the invariant holds, and it is preserved by setPage 7
and setPageSize 20. -/
theorem C9_witness :
    PagInv ⟨2, 10, 95⟩ ∧ (1 : Int) ≤ (PagState.mk 2 10 95).pageSize ∧
    (1 : Int) ≤ 20 ∧
    PagInv ((PagState.mk 2 10 95).setPage 7) ∧
    PagInv ((PagState.mk 2 10 95).setPageSize 20) := by
  have h := C9_usePagination_invariant ⟨2, 10, 95⟩ (by decide) (by decide)
  exact ⟨by decide, by decide, by decide, h.1 7, h.2.1 20 (by decide)⟩

/-! ## C4: offset and limit computation of the list services -/

theorem ceil_div_bounds (t ps : Nat) (h : 1 ≤ ps) :
    t ≤ ps * ((t + ps - 1) / ps) ∧ ps * ((t + ps - 1) / ps) < t + ps := by
  have e := Nat.div_add_mod (t + ps - 1) ps
  have hr : (t + ps - 1) % ps < ps := Nat.mod_lt _ (by omega)
  generalize hq : ps * ((t + ps - 1) / ps) = y at e ⊢
  generalize hrr : (t + ps - 1) % ps = r at e hr
  omega

/-- C4: for page >= 1 and pageSize >= 1, getBusinesses, getServices and
getTransactions all request the inclusive row range from
(page - 1) * pageSize to (page - 1) * pageSize + pageSize - 1, and on a
successful reply report total = count (0 when absent) and totalPages the
ceiling of total / pageSize (characterised by the two inequalities). -/
theorem C4_offset_limit_totalPages (page pageSize : Nat)
    (_hpage : 1 ≤ page) (hps : 1 ≤ pageSize) :
    (∀ bp : BusinessQueryParams,
      bp.page = some page → bp.pageSize = some pageSize →
      (getBusinessesQuery bp).rangeFrom = (page - 1) * pageSize ∧
      (getBusinessesQuery bp).rangeTo =
        (page - 1) * pageSize + pageSize - 1 ∧
      (∀ reply : StoreListReply Business, reply.error = none →
        (getBusinesses bp (.ok reply)).data = some
          { data := reply.data, total := reply.count.getD 0, page := page,
            pageSize := pageSize,
            totalPages := (reply.count.getD 0 + pageSize - 1) / pageSize } ∧
        reply.count.getD 0 ≤
          pageSize * ((reply.count.getD 0 + pageSize - 1) / pageSize) ∧
        pageSize * ((reply.count.getD 0 + pageSize - 1) / pageSize) <
          reply.count.getD 0 + pageSize)) ∧
    (∀ sp : ServiceQueryParams,
      sp.page = some page → sp.pageSize = some pageSize →
      (getServicesQuery sp).rangeFrom = (page - 1) * pageSize ∧
      (getServicesQuery sp).rangeTo =
        (page - 1) * pageSize + pageSize - 1 ∧
      (∀ reply : StoreListReply Service, reply.error = none →
        (getServices sp (.ok reply)).data = some
          { data := reply.data, total := reply.count.getD 0, page := page,
            pageSize := pageSize,
            totalPages := (reply.count.getD 0 + pageSize - 1) / pageSize })) ∧
    (∀ tp : TransactionQueryParams,
      tp.page = some page → tp.pageSize = some pageSize →
      (getTransactionsQuery tp).rangeFrom = (page - 1) * pageSize ∧
      (getTransactionsQuery tp).rangeTo =
        (page - 1) * pageSize + pageSize - 1 ∧
      (∀ reply : StoreListReply Transaction, reply.error = none →
        (getTransactions tp (.ok reply)).data = some
          { data := reply.data, total := reply.count.getD 0, page := page,
            pageSize := pageSize,
            totalPages := (reply.count.getD 0 + pageSize - 1) / pageSize })) := by
  refine ⟨?_, ?_, ?_⟩
  · intro bp hp hs
    refine ⟨?_, ?_, ?_⟩
    · simp [getBusinessesQuery, hp, hs]
    · simp [getBusinessesQuery, hp, hs]
    · intro reply herr
      rcases reply with ⟨rdata, rerr, rcount⟩
      simp only at herr
      subst herr
      refine ⟨?_, ?_⟩
      · simp [getBusinesses, hp, hs, jsCeilNat]
      · exact ceil_div_bounds _ _ hps
  · intro sp hp hs
    refine ⟨?_, ?_, ?_⟩
    · simp [getServicesQuery, hp, hs]
    · simp [getServicesQuery, hp, hs]
    · intro reply herr
      rcases reply with ⟨rdata, rerr, rcount⟩
      simp only at herr
      subst herr
      simp [getServices, hp, hs, jsCeilNat]
  · intro tp hp hs
    refine ⟨?_, ?_, ?_⟩
    · simp [getTransactionsQuery, hp, hs]
    · simp [getTransactionsQuery, hp, hs]
    · intro reply herr
      rcases reply with ⟨rdata, rerr, rcount⟩
      simp only at herr
      subst herr
      simp [getTransactions, hp, hs, jsCeilNat]

/-- Witness for C4 at page 2, pageSize 5 and a successful count of 23:
the requested range is rows 5 to 9 and totalPages is 5. -/
theorem C4_witness :
    ((1 : Nat) ≤ 2 ∧ (1 : Nat) ≤ 5) ∧
    (getBusinessesQuery { page := some 2, pageSize := some 5 }).rangeFrom
      = 5 ∧
    (getBusinessesQuery { page := some 2, pageSize := some 5 }).rangeTo
      = 9 ∧
    (getBusinesses { page := some 2, pageSize := some 5 }
      (.ok { data := [], error := none, count := some 23 })).data = some
      { data := [], total := 23, page := 2, pageSize := 5,
        totalPages := 5 } := by
  have h := (C4_offset_limit_totalPages 2 5 (by decide) (by decide)).1
    { page := some 2, pageSize := some 5 } rfl rfl
  refine ⟨⟨by decide, by decide⟩, ?_, ?_, ?_⟩
  · exact h.1.trans (by decide)
  · exact h.2.1.trans (by decide)
  · exact ((h.2.2 { data := [], error := none, count := some 23 }
      rfl).1).trans (by decide)

/-! ## C8: stats by repeated count queries -/

/-- C8 counterexample: the claim requires one count query per status of
the Business enum, but getBusinessStats never issues a count query for
status removed — its result does not change when the removed-status count
reply is replaced by a thrown exception (and under the claim a failing
count query would have to surface that failure). -/
theorem C8_counterexample :
    getBusinessStats countOracleRemovedThrows =
      getBusinessStats countOracleRemoved100 ∧
    (getBusinessStats countOracleRemovedThrows).error = none ∧
    "removed" ∈ businessStatusStrings := by
  refine ⟨rfl, rfl, by decide⟩

/-- C8 amended: each stats operation issues one count query for the total
and one per status appearing in its stats shape (active, pending,
suspended, rejected — plus requestDeletion for services, with no queries
for the remaining enum statuses, expressed by invariance under change of
the oracle outside those filters), substituting 0 for an absent count; the
first failing count query aborts the sequence with the error of that query and
a null stats value. -/
theorem C8_stats_count_queries :
    (∀ exec exec2 : Option String → Except JsError CountReply,
      (∀ q ∈ businessStatsFilters, exec q = exec2 q) →
      getBusinessStats exec = getBusinessStats exec2) ∧
    (∀ (exec : Option String → Except JsError CountReply)
        (r0 r1 r2 r3 r4 : CountReply),
      exec none = .ok r0 → exec (some "active") = .ok r1 →
      exec (some "pending") = .ok r2 → exec (some "suspended") = .ok r3 →
      exec (some "rejected") = .ok r4 →
      (r0.error = none → r1.error = none → r2.error = none →
        r3.error = none → r4.error = none →
        getBusinessStats exec =
          { stats := some
              { total := r0.count.getD 0, active := r1.count.getD 0,
                pending := r2.count.getD 0, suspended := r3.count.getD 0,
                rejected := r4.count.getD 0 },
            error := none }) ∧
      (∀ e, r0.error = some e →
        getBusinessStats exec = { stats := none, error := some e.toApi }) ∧
      (∀ e, r0.error = none → r1.error = some e →
        getBusinessStats exec = { stats := none, error := some e.toApi }) ∧
      (∀ e, r0.error = none → r1.error = none → r2.error = some e →
        getBusinessStats exec = { stats := none, error := some e.toApi }) ∧
      (∀ e, r0.error = none → r1.error = none → r2.error = none →
        r3.error = some e →
        getBusinessStats exec = { stats := none, error := some e.toApi }) ∧
      (∀ e, r0.error = none → r1.error = none → r2.error = none →
        r3.error = none → r4.error = some e →
        getBusinessStats exec = { stats := none, error := some e.toApi })) ∧
    (∀ exec exec2 : Option String → Except JsError CountReply,
      (∀ q ∈ serviceStatsFilters, exec q = exec2 q) →
      getServiceStats exec = getServiceStats exec2) ∧
    (∀ (exec : Option String → Except JsError CountReply)
        (r0 r1 r2 r3 r4 r5 : CountReply),
      exec none = .ok r0 → exec (some "active") = .ok r1 →
      exec (some "pending") = .ok r2 → exec (some "suspended") = .ok r3 →
      exec (some "rejected") = .ok r4 →
      exec (some "requestDeletion") = .ok r5 →
      (r0.error = none → r1.error = none → r2.error = none →
        r3.error = none → r4.error = none → r5.error = none →
        getServiceStats exec =
          { stats := some
              { total := r0.count.getD 0, active := r1.count.getD 0,
                pending := r2.count.getD 0, suspended := r3.count.getD 0,
                rejected := r4.count.getD 0,
                requestDeletion := r5.count.getD 0 },
            error := none }) ∧
      (∀ e, r0.error = some e →
        getServiceStats exec = { stats := none, error := some e.toApi }) ∧
      (∀ e, r0.error = none → r1.error = none → r2.error = none →
        r3.error = none → r4.error = none → r5.error = some e →
        getServiceStats exec = { stats := none, error := some e.toApi })) := by
  refine ⟨?_, ?_, ?_, ?_⟩
  · intro exec exec2 h
    have h0 := h none (by decide)
    have h1 := h (some "active") (by decide)
    have h2 := h (some "pending") (by decide)
    have h3 := h (some "suspended") (by decide)
    have h4 := h (some "rejected") (by decide)
    simp only [getBusinessStats, h0, h1, h2, h3, h4]
  · intro exec r0 r1 r2 r3 r4 h0 h1 h2 h3 h4
    refine ⟨?_, ?_, ?_, ?_, ?_, ?_⟩
    · intro e0 e1 e2 e3 e4
      simp [getBusinessStats, h0, h1, h2, h3, h4, e0, e1, e2, e3, e4]
    · intro e he
      simp [getBusinessStats, h0, he]
    · intro e he0 he
      simp [getBusinessStats, h0, h1, he0, he]
    · intro e he0 he1 he
      simp [getBusinessStats, h0, h1, h2, he0, he1, he]
    · intro e he0 he1 he2 he
      simp [getBusinessStats, h0, h1, h2, h3, he0, he1, he2, he]
    · intro e he0 he1 he2 he3 he
      simp [getBusinessStats, h0, h1, h2, h3, h4, he0, he1, he2, he3, he]
  · intro exec exec2 h
    have h0 := h none (by decide)
    have h1 := h (some "active") (by decide)
    have h2 := h (some "pending") (by decide)
    have h3 := h (some "suspended") (by decide)
    have h4 := h (some "rejected") (by decide)
    have h5 := h (some "requestDeletion") (by decide)
    simp only [getServiceStats, h0, h1, h2, h3, h4, h5]
  · intro exec r0 r1 r2 r3 r4 r5 h0 h1 h2 h3 h4 h5
    refine ⟨?_, ?_, ?_⟩
    · intro e0 e1 e2 e3 e4 e5
      simp [getServiceStats, h0, h1, h2, h3, h4, h5, e0, e1, e2, e3, e4, e5]
    · intro e he
      simp [getServiceStats, h0, he]
    · intro e he0 he1 he2 he3 he4 he
      simp [getServiceStats, h0, h1, h2, h3, h4, h5, he0, he1, he2, he3,
        he4, he]

/-- Witness for C8: under an oracle answering every count query with 3,
getBusinessStats returns total/active/pending/suspended/rejected all 3. -/
theorem C8_witness :
    countOracleAll3 none = .ok { count := some 3, error := none } ∧
    getBusinessStats countOracleAll3 =
      { stats := some
          { total := 3, active := 3, pending := 3, suspended := 3,
            rejected := 3 },
        error := none } := by
  refine ⟨rfl, ?_⟩
  have h := ((C8_stats_count_queries.2.1 countOracleAll3
    { count := some 3, error := none } { count := some 3, error := none }
    { count := some 3, error := none } { count := some 3, error := none }
    { count := some 3, error := none }
    rfl rfl rfl rfl rfl).1 rfl rfl rfl rfl rfl)
  exact h.trans (by decide)

/-! ## C6: totality and the flat-error dichotomy -/

/-- C6: every embedded data-access function is total (a thrown exception
is converted into the flat error by the catch block, shown explicitly for
the two cited fetchers and the deletes) and its result carries exactly one
of a non-null payload or a non-null flat error; the delete functions
return only the optional flat error, success being its absence. -/
theorem C6_flat_error_dichotomy :
    (∀ (params : BusinessQueryParams)
        (outcome : Except JsError (StoreListReply Business)),
      ((getBusinesses params outcome).data.isSome = true ∧
        (getBusinesses params outcome).error = none) ∨
      ((getBusinesses params outcome).data = none ∧
        (getBusinesses params outcome).error.isSome = true)) ∧
    (∀ (params : ServiceQueryParams)
        (outcome : Except JsError (StoreListReply Service)),
      ((getServices params outcome).data.isSome = true ∧
        (getServices params outcome).error = none) ∨
      ((getServices params outcome).data = none ∧
        (getServices params outcome).error.isSome = true)) ∧
    (∀ (params : TransactionQueryParams)
        (outcome : Except JsError (StoreListReply Transaction)),
      ((getTransactions params outcome).data.isSome = true ∧
        (getTransactions params outcome).error = none) ∨
      ((getTransactions params outcome).data = none ∧
        (getTransactions params outcome).error.isSome = true)) ∧
    (∀ outcome : Except JsError (StoreListReply LegalPage),
      ((getLegalPages outcome).legalPages.isSome = true ∧
        (getLegalPages outcome).error = none) ∨
      ((getLegalPages outcome).legalPages = none ∧
        (getLegalPages outcome).error.isSome = true)) ∧
    (∀ (store : List Business) (id : String),
      ((getBusinessById store id).business.isSome = true ∧
        (getBusinessById store id).error = none) ∨
      ((getBusinessById store id).business = none ∧
        (getBusinessById store id).error.isSome = true)) ∧
    (∀ (store : List LegalPage) (id : String),
      ((getLegalPageById store id).legalPage.isSome = true ∧
        (getLegalPageById store id).error = none) ∨
      ((getLegalPageById store id).legalPage = none ∧
        (getLegalPageById store id).error.isSome = true)) ∧
    (∀ (store : List Business) (id : String) (st : BusinessStatus)
        (now : String) (ue : Option StoreError),
      ((updateBusinessStatus store id st now ue).2.business.isSome = true ∧
        (updateBusinessStatus store id st now ue).2.error = none) ∨
      ((updateBusinessStatus store id st now ue).2.business = none ∧
        (updateBusinessStatus store id st now ue).2.error.isSome = true)) ∧
    (∀ (store : List Service) (id : String) (st : ServiceStatus)
        (now : String) (ue : Option StoreError),
      ((updateServiceStatus store id st now ue).2.service.isSome = true ∧
        (updateServiceStatus store id st now ue).2.error = none) ∨
      ((updateServiceStatus store id st now ue).2.service = none ∧
        (updateServiceStatus store id st now ue).2.error.isSome = true)) ∧
    (∀ (store : List Company) (id : String) (st : CompanyStatus)
        (now : String) (ue : Option StoreError),
      ((updateCompanyStatus store id st now ue).2.company.isSome = true ∧
        (updateCompanyStatus store id st now ue).2.error = none) ∨
      ((updateCompanyStatus store id st now ue).2.company = none ∧
        (updateCompanyStatus store id st now ue).2.error.isSome = true)) ∧
    (∀ exec : Option String → Except JsError CountReply,
      ((getBusinessStats exec).stats.isSome = true ∧
        (getBusinessStats exec).error = none) ∨
      ((getBusinessStats exec).stats = none ∧
        (getBusinessStats exec).error.isSome = true)) ∧
    (∀ exec : Option String → Except JsError CountReply,
      ((getServiceStats exec).stats.isSome = true ∧
        (getServiceStats exec).error = none) ∨
      ((getServiceStats exec).stats = none ∧
        (getServiceStats exec).error.isSome = true)) ∧
    (∀ (store : List LegalPage) (input : CreateLegalPageInput)
        (newId now : String) (ie : Option StoreError),
      ((createLegalPage store input newId now ie).2.legalPage.isSome = true ∧
        (createLegalPage store input newId now ie).2.error = none) ∨
      ((createLegalPage store input newId now ie).2.legalPage = none ∧
        (createLegalPage store input newId now ie).2.error.isSome = true)) ∧
    (∀ (store : List LegalPage) (id : String) (input : UpdateLegalPageInput)
        (now : String) (ue : Option StoreError),
      ((updateLegalPage store id input now ue).2.legalPage.isSome = true ∧
        (updateLegalPage store id input now ue).2.error = none) ∨
      ((updateLegalPage store id input now ue).2.legalPage = none ∧
        (updateLegalPage store id input now ue).2.error.isSome = true)) ∧
    (∀ (params : BusinessQueryParams) (e : JsError),
      getBusinesses params (.error e) =
        { data := none,
          error := some
            { message := catchMessage e "Failed to fetch businesses" } }) ∧
    (∀ e : JsError,
      getLegalPages (.error e) =
        { legalPages := none,
          error := some
            { message := catchMessage e "Failed to fetch legal pages" } }) ∧
    (∀ (store : List Business) (id : String) (e : JsError),
      (deleteBusiness store id (.error e)).2 =
        some { message := catchMessage e "Failed to delete business" }) ∧
    (∀ (store : List Business) (id : String),
      (deleteBusiness store id (.ok none)).2 = none) ∧
    (∀ (store : List Business) (id : String) (se : StoreError),
      (deleteBusiness store id (.ok (some se))).2 = some se.toApi) ∧
    (∀ (store : List LegalPage) (id : String) (e : JsError),
      (deleteLegalPage store id (.error e)).2 =
        some { message := catchMessage e "Failed to delete legal page" }) ∧
    (∀ (store : List LegalPage) (id : String),
      (deleteLegalPage store id (.ok none)).2 = none) := by
  refine ⟨?_, ?_, ?_, ?_, ?_, ?_, ?_, ?_, ?_, ?_, ?_, ?_, ?_,
    fun params e => rfl, fun e => rfl, fun store id e => rfl,
    fun store id => rfl, fun store id se => rfl, fun store id e => rfl,
    fun store id => rfl⟩
  · intro params outcome
    unfold getBusinesses
    repeat' split
    all_goals first
      | exact Or.inl ⟨rfl, rfl⟩
      | exact Or.inr ⟨rfl, rfl⟩
  · intro params outcome
    unfold getServices
    repeat' split
    all_goals first
      | exact Or.inl ⟨rfl, rfl⟩
      | exact Or.inr ⟨rfl, rfl⟩
  · intro params outcome
    unfold getTransactions
    repeat' split
    all_goals first
      | exact Or.inl ⟨rfl, rfl⟩
      | exact Or.inr ⟨rfl, rfl⟩
  · intro outcome
    unfold getLegalPages
    repeat' split
    all_goals first
      | exact Or.inl ⟨rfl, rfl⟩
      | exact Or.inr ⟨rfl, rfl⟩
  · intro store id
    unfold getBusinessById
    repeat' split
    all_goals first
      | exact Or.inl ⟨rfl, rfl⟩
      | exact Or.inr ⟨rfl, rfl⟩
  · intro store id
    unfold getLegalPageById
    repeat' split
    all_goals first
      | exact Or.inl ⟨rfl, rfl⟩
      | exact Or.inr ⟨rfl, rfl⟩
  · intro store id st now ue
    unfold updateBusinessStatus
    dsimp only
    repeat' split
    all_goals first
      | exact Or.inl ⟨rfl, rfl⟩
      | exact Or.inr ⟨rfl, rfl⟩
  · intro store id st now ue
    unfold updateServiceStatus
    dsimp only
    repeat' split
    all_goals first
      | exact Or.inl ⟨rfl, rfl⟩
      | exact Or.inr ⟨rfl, rfl⟩
  · intro store id st now ue
    unfold updateCompanyStatus
    dsimp only
    repeat' split
    all_goals first
      | exact Or.inl ⟨rfl, rfl⟩
      | exact Or.inr ⟨rfl, rfl⟩
  · intro exec
    unfold getBusinessStats
    repeat' split
    all_goals first
      | exact Or.inl ⟨rfl, rfl⟩
      | exact Or.inr ⟨rfl, rfl⟩
  · intro exec
    unfold getServiceStats
    repeat' split
    all_goals first
      | exact Or.inl ⟨rfl, rfl⟩
      | exact Or.inr ⟨rfl, rfl⟩
  · intro store input newId now ie
    unfold createLegalPage
    repeat' split
    all_goals first
      | exact Or.inl ⟨rfl, rfl⟩
      | exact Or.inr ⟨rfl, rfl⟩
  · intro store id input now ue
    unfold updateLegalPage runLegalPageUpdate
    dsimp only
    repeat' split
    all_goals first
      | exact Or.inl ⟨rfl, rfl⟩
      | exact Or.inr ⟨rfl, rfl⟩

/-! ## C3: slug uniqueness in the legal-page service -/

theorem filter_eq_singleton_of_nodup_map {α β : Type} [DecidableEq β]
    (f : α → β) (p : α → Bool) (a : α) :
    ∀ l : List α, (l.map f).Nodup → a ∈ l → p a = true →
      (∀ x ∈ l, p x = true → f x = f a) → l.filter p = [a] := by
  intro l
  induction l with
  | nil => intro _ ha; cases ha
  | cons x xs ih =>
    intro hnd ha hpa hsub
    rw [List.map_cons, List.nodup_cons] at hnd
    obtain ⟨hfx, hnd2⟩ := hnd
    rcases List.mem_cons.mp ha with hax | hax
    · subst hax
      rw [List.filter_cons, if_pos hpa]
      have hxs : xs.filter p = [] := by
        rw [List.filter_eq_nil_iff]
        intro y hy hpy
        have hfy := hsub y (List.mem_cons_of_mem _ hy) hpy
        exact hfx (hfy ▸ List.mem_map_of_mem f hy)
      rw [hxs]
    · have hpx : p x = false := by
        by_contra hc
        rw [Bool.not_eq_false] at hc
        have hfxa := hsub x (List.mem_cons_self _ _) hc
        have hmem : f a ∈ xs.map f := List.mem_map_of_mem f hax
        rw [← hfxa] at hmem
        exact hfx hmem
      rw [List.filter_cons, if_neg (by rw [hpx]; exact Bool.false_ne_true)]
      exact ih hnd2 hax hpa
        (fun y hy hpy => hsub y (List.mem_cons_of_mem _ hy) hpy)

/-- C3 counterexample: when the supplied slug is the empty string the
uniqueness check of updateLegalPage is skipped (JavaScript truthiness of
the slug), so updating page p2 to the empty slug already carried by page
p1 succeeds and mutates the store instead of returning the duplicate-slug
error. -/
theorem C3_counterexample :
    samplePageEmptySlug ∈ [samplePageEmptySlug, samplePageB] ∧
    samplePageEmptySlug.slug = "" ∧ ¬ samplePageEmptySlug.id = "p2" ∧
    (updateLegalPage [samplePageEmptySlug, samplePageB] "p2"
        { slug := some "" } "2025-06-01T00:00:00Z" none).2.error = none ∧
    (updateLegalPage [samplePageEmptySlug, samplePageB] "p2"
        { slug := some "" } "2025-06-01T00:00:00Z" none).1 ≠
      [samplePageEmptySlug, samplePageB] := by
  refine ⟨by decide, by decide, by decide, rfl, by decide⟩

/-- C3 amended: assuming the unique-slug invariant of the store,
createLegalPage aborts with the duplicate-slug error and an unchanged
store whenever a page with the requested slug exists, and updateLegalPage
does so whenever a NON-EMPTY slug is supplied that belongs to a different
page (an empty supplied slug skips the check). -/
theorem C3_slug_uniqueness :
    (∀ (store : List LegalPage) (input : CreateLegalPageInput)
        (newId now : String) (ie : Option StoreError),
      (store.map LegalPage.slug).Nodup →
      ∀ pg ∈ store, pg.slug = input.slug →
      createLegalPage store input newId now ie =
        (store,
         { legalPage := none,
           error := some
             { message := "A legal page with this slug already exists" } })) ∧
    (∀ (store : List LegalPage) (id : String)
        (input : UpdateLegalPageInput) (now : String)
        (ue : Option StoreError) (s : String),
      input.slug = some s → s ≠ "" →
      (store.map LegalPage.slug).Nodup →
      ∀ pg ∈ store, pg.slug = s → ¬ pg.id = id →
      updateLegalPage store id input now ue =
        (store,
         { legalPage := none,
           error := some
             { message := "A legal page with this slug already exists" } })) := by
  constructor
  · intro store input newId now ie hnd pg hpg hslug
    have hfil : store.filter (fun p => p.slug = input.slug) = [pg] :=
      filter_eq_singleton_of_nodup_map LegalPage.slug _ pg store hnd hpg
        (by simp [hslug])
        (fun x _ hx => by
          simp only [decide_eq_true_eq] at hx
          rw [hx, hslug])
    unfold createLegalPage
    rw [hfil]
    rfl
  · intro store id input now ue s hs hne hnd pg hpg hslug hid
    have hfil : store.filter (fun p => p.slug = s ∧ ¬ p.id = id) = [pg] :=
      filter_eq_singleton_of_nodup_map LegalPage.slug _ pg store hnd hpg
        (by simp [hslug, hid])
        (fun x _ hx => by
          simp only [decide_eq_true_eq] at hx
          rw [hx.1, hslug])
    unfold updateLegalPage
    rw [hs]
    unfold truthyStr
    dsimp only
    rw [if_neg hne]
    dsimp only
    rw [hfil]
    rfl

/-- Witness for C3: a store holding only page p2 (slug b, unique slugs),
creating another page with slug b is refused with the duplicate-slug
error and the store unchanged; likewise updating a different id to slug
b. -/
theorem C3_witness :
    ([samplePageB].map LegalPage.slug).Nodup ∧
    samplePageB ∈ [samplePageB] ∧ samplePageB.slug = "b" ∧
    createLegalPage [samplePageB]
        { title := "Terms copy", slug := "b", page_type := "terms",
          content := "z" } "p9" "2025-06-01T00:00:00Z" none =
      ([samplePageB],
       { legalPage := none,
         error := some
           { message := "A legal page with this slug already exists" } }) ∧
    updateLegalPage [samplePageB] "p9" { slug := some "b" }
        "2025-06-01T00:00:00Z" none =
      ([samplePageB],
       { legalPage := none,
         error := some
           { message := "A legal page with this slug already exists" } }) := by
  refine ⟨by decide, by decide, by decide, ?_, ?_⟩
  · exact C3_slug_uniqueness.1 [samplePageB]
      { title := "Terms copy", slug := "b", page_type := "terms",
        content := "z" } "p9" "2025-06-01T00:00:00Z" none (by decide)
      samplePageB (by decide) (by decide)
  · exact C3_slug_uniqueness.2 [samplePageB] "p9" { slug := some "b" }
      "2025-06-01T00:00:00Z" none "b" rfl (by decide) (by decide)
      samplePageB (by decide) (by decide) (by decide)

/-! ## C1: the authenticated-admin gate on login and register -/

/-- C1 counterexample: register succeeds (non-null user) although the
caller is authenticated as a customer — the source performs no admin
check on the registration path (and the /register route is public). -/
theorem C1_counterexample :
    register sampleCreateInput (some "customer")
        (.ok { user := some { id := "u1" }, error := none })
        (.ok (.ok sampleCustomerRow)) =
      { user := some sampleCustomerRow, error := none } ∧
    sampleCustomerRow.user_type ≠ "admin" := by
  exact ⟨rfl, by decide⟩

/-- C1 amended: login is gated — it returns a non-null user only when the
fetched profile has user_type admin, and on a fetched non-admin profile it
signs out and returns the access-denied error; register is NOT gated — its
result never depends on who is authenticated, and it succeeds whenever
sign-up and the profile insert succeed. -/
theorem C1_admin_gate :
    (∀ (signIn : Except JsError SignInReply)
        (profile : Except JsError (Except StoreError UserRow)) (u : UserRow),
      (login signIn profile).1.user = some u →
      profile = .ok (.ok u) ∧ u.user_type = "admin") ∧
    (∀ (r : SignInReply) (row : UserRow),
      r.error = none → r.user.isSome = true → row.user_type ≠ "admin" →
      login (.ok r) (.ok (.ok row)) =
        ({ session := none, user := none,
           error := some
             { message := "Access denied. Admin privileges required." } },
         true)) ∧
    (∀ (input : CreateUserInput) (ct ct2 : Option String)
        (signUp : Except JsError SignUpReply)
        (insert : Except JsError (Except StoreError UserRow)),
      register input ct signUp insert = register input ct2 signUp insert) ∧
    (∀ (input : CreateUserInput) (ct : Option String) (r : SignUpReply)
        (row : UserRow),
      r.error = none → r.user.isSome = true →
      register input ct (.ok r) (.ok (.ok row)) =
        { user := some row, error := none }) := by
  refine ⟨?_, ?_, fun input ct ct2 signUp insert => rfl, ?_⟩
  · intro signIn profile u h
    cases signIn with
    | error e => simp [login] at h
    | ok r =>
      cases herr : r.error with
      | some ae => simp [login, herr] at h
      | none =>
        cases huser : r.user with
        | none => simp [login, herr, huser] at h
        | some au =>
          cases profile with
          | error e => simp [login, herr, huser] at h
          | ok p =>
            cases p with
            | error ue => simp [login, herr, huser] at h
            | ok userData =>
              by_cases hadm : userData.user_type = "admin"
              · have h2 : userData = u := by
                  simp [login, herr, huser, hadm] at h
                  exact h
                subst h2
                exact ⟨rfl, hadm⟩
              · simp [login, herr, huser, hadm] at h
  · intro r row herr huser hna
    obtain ⟨au, hau⟩ := Option.isSome_iff_exists.mp huser
    rcases r with ⟨ruser, rsession, rerror⟩
    simp only at herr hau
    subst herr
    subst hau
    simp [login, hna]
  · intro input ct r row herr huser
    obtain ⟨au, hau⟩ := Option.isSome_iff_exists.mp huser
    rcases r with ⟨ruser, rerror⟩
    simp only at herr hau
    subst herr
    subst hau
    rfl

/-- Witness for C1: a successful sign-up reply and insert make register
succeed with no admin involved, and a login that fetches a customer
profile is refused with the access-denied error and a sign-out. -/
theorem C1_witness :
    ((SignUpReply.mk (some ⟨"u1"⟩) none).error = none ∧
     (SignUpReply.mk (some ⟨"u1"⟩) none).user.isSome = true ∧
     sampleCustomerRow.user_type ≠ "admin") ∧
    register sampleCreateInput none (.ok ⟨some ⟨"u1"⟩, none⟩)
      (.ok (.ok sampleCustomerRow)) =
      { user := some sampleCustomerRow, error := none } ∧
    login (.ok ⟨some ⟨"u1"⟩, none, none⟩) (.ok (.ok sampleCustomerRow)) =
      ({ session := none, user := none,
         error := some
           { message := "Access denied. Admin privileges required." } },
       true) := by
  refine ⟨⟨rfl, rfl, by decide⟩, ?_, ?_⟩
  · exact C1_admin_gate.2.2.2 sampleCreateInput none ⟨some ⟨"u1"⟩, none⟩
      sampleCustomerRow rfl rfl
  · exact C1_admin_gate.2.1 ⟨some ⟨"u1"⟩, none, none⟩ sampleCustomerRow
      rfl rfl (by decide)

end TG
